import Mathlib

/-!
Verification of the Bitcoin-Script explainer backend.

The definitions below are a shallow embedding of the Python sources
(`backend/parser.py`, `backend/detector.py`, `backend/opcodes.py`,
`backend/explainer.py`).  Python lists of strings become `List String`
with the stack top at the tail, exactly as in the source; Python's
`OpcodeResult` dataclass and the pydantic models become structures;
`try int(...) / except ValueError` becomes an `Option Int` parser; the
mutable `self.stack` / `self.warnings` instance state of `Explainer`
is threaded explicitly through `runTokens` / `explain_run`.

Two systematic transcription notes:
* case mapping and character classes are modelled for ASCII, the
  character range actually exercised by the program;
* single-quote characters that appear inside the source's explanation
  strings are elided (they cannot be written in this development), and
  the warning-sign emoji is kept; no property below depends on either.
-/

namespace BitcoinScript

/-! ## Character helpers (ASCII models of Python `str` methods) -/

/-- The whitespace characters recognised by the parser (Python `\s` on the
ASCII range: space, tab, newline, carriage return, vertical tab, form feed). -/
def isWS (c : Char) : Bool :=
  c = ' ' || c = '\t' || c = '\n' || c = '\r' || c = (Char.ofNat 11) || c = (Char.ofNat 12)

/-- ASCII upper-casing of one character (Python `str.upper` on ASCII). -/
def pyUpperChar : Char → Char
  | 'a' => 'A' | 'b' => 'B' | 'c' => 'C' | 'd' => 'D' | 'e' => 'E' | 'f' => 'F'
  | 'g' => 'G' | 'h' => 'H' | 'i' => 'I' | 'j' => 'J' | 'k' => 'K' | 'l' => 'L'
  | 'm' => 'M' | 'n' => 'N' | 'o' => 'O' | 'p' => 'P' | 'q' => 'Q' | 'r' => 'R'
  | 's' => 'S' | 't' => 'T' | 'u' => 'U' | 'v' => 'V' | 'w' => 'W' | 'x' => 'X'
  | 'y' => 'Y' | 'z' => 'Z'
  | c => c

/-- ASCII lower-casing of one character (Python `str.lower` on ASCII). -/
def pyLowerChar : Char → Char
  | 'A' => 'a' | 'B' => 'b' | 'C' => 'c' | 'D' => 'd' | 'E' => 'e' | 'F' => 'f'
  | 'G' => 'g' | 'H' => 'h' | 'I' => 'i' | 'J' => 'j' | 'K' => 'k' | 'L' => 'l'
  | 'M' => 'm' | 'N' => 'n' | 'O' => 'o' | 'P' => 'p' | 'Q' => 'q' | 'R' => 'r'
  | 'S' => 's' | 'T' => 't' | 'U' => 'u' | 'V' => 'v' | 'W' => 'w' | 'X' => 'x'
  | 'Y' => 'y' | 'Z' => 'z'
  | c => c

def upperChars (l : List Char) : List Char := l.map pyUpperChar

def lowerChars (l : List Char) : List Char := l.map pyLowerChar

/-- Python `s.upper()` on a `String`. -/
def pyUpper (s : String) : String := String.mk (upperChars s.data)

/-- Python `s.lower()` on a `String`. -/
def pyLower (s : String) : String := String.mk (lowerChars s.data)

/-- Python `s.strip()`: drop whitespace from both ends. -/
def stripChars (l : List Char) : List Char :=
  ((l.dropWhile isWS).reverse.dropWhile isWS).reverse

/-- Does the (already upper-cased) character list start with `OP_`?
Models Python `token.upper().startswith("OP_")` when applied to
`upperChars token`. -/
def startsWithOP : List Char → Bool
  | 'O' :: 'P' :: '_' :: _ => true
  | _ => false

def isHexDigitCh (c : Char) : Bool :=
  c.isDigit || ('a' ≤ c && c ≤ 'f') || ('A' ≤ c && c ≤ 'F')

/-! ## Python integer-literal parsing

`int(s, b)` accepts optional surrounding whitespace, an optional sign,
for base 16 an optional `0x`/`0X` prefix (an underscore may follow it),
and digits with single underscores between digits. -/

/-- Digits (base given by the digit test `d`) continuing a digit run:
an underscore is only legal between two digits, i.e. when the next
character is a digit (a trailing or doubled underscore fails). -/
def digitRun (d : Char → Bool) : List Char → Bool
  | [] => true
  | [c] => d c
  | c :: c' :: cs =>
    if c = '_' then d c' && digitRun d (c' :: cs)
    else d c && digitRun d (c' :: cs)

/-- A nonempty digit sequence with legal underscores. -/
def digitsU (d : Char → Bool) : List Char → Bool
  | [] => false
  | c :: cs => d c && digitRun d cs

/-- Validity of the body of an `int(s, 16)` literal after sign removal:
an optional `0x`/`0X` base prefix (an underscore may directly follow
it), then hex digits with legal underscores. -/
def hexBody : List Char → Bool
  | [] => digitsU isHexDigitCh []
  | [c] => digitsU isHexDigitCh [c]
  | c0 :: c1 :: r =>
    if c0 = '0' ∧ (c1 = 'x' ∨ c1 = 'X') then
      digitsU isHexDigitCh (if r.headD ' ' = '_' then r.tail else r)
    else digitsU isHexDigitCh (c0 :: c1 :: r)

/-- Would Python `int(s, 16)` succeed on `l`?  Surrounding whitespace is
stripped and an optional single leading sign is skipped. -/
def pyInt16Valid (l : List Char) : Bool :=
  let t := stripChars l
  hexBody (if t.headD ' ' = '+' ∨ t.headD ' ' = '-' then t.tail else t)

/-- Decimal value of a digit run (underscores skipped). -/
def decVal (l : List Char) : Nat :=
  l.foldl (fun n c => if c = '_' then n else n * 10 + (c.toNat - 48)) 0

/-- Python `int(s)` (base 10): `some` value on success, `none` when a
`ValueError` would be raised. -/
def pyToInt (s : String) : Option Int :=
  match stripChars s.data with
  | '+' :: r => if digitsU Char.isDigit r then some (Int.ofNat (decVal r)) else none
  | '-' :: r => if digitsU Char.isDigit r then some (-(Int.ofNat (decVal r))) else none
  | r => if digitsU Char.isDigit r then some (Int.ofNat (decVal r)) else none

/-! ## parser.py -/

/-- Does the character list start with `0x`?  Applied below to the
lower-cased token, modelling Python `s.lower().startswith("0x")`. -/
def startsWith0x : List Char → Bool
  | '0' :: 'x' :: _ => true
  | _ => false

/-- `is_valid_hex` from parser.py: strip an optional (case-insensitive)
`0x` prefix, then test whether `int(s, 16)` succeeds. -/
def is_valid_hex (l : List Char) : Bool :=
  if l.isEmpty then false
  else pyInt16Valid (if startsWith0x (lowerChars l) then l.drop 2 else l)

def isIdentChar (c : Char) : Bool :=
  c.isAlphanum || c = '_' || c = '<' || c = '>'

/-- `validate_token` from parser.py: normalise one token or report a
parse error. -/
def validate_token (tok : List Char) : Except String String :=
  let t := stripChars tok
  if t.isEmpty then .error "Empty token encountered"
  else if startsWithOP (upperChars t) then .ok (String.mk (upperChars t))
  else if is_valid_hex t then .ok (String.mk (lowerChars t))
  else if t.all Char.isDigit then .ok (String.mk t)
  else if t.all isIdentChar then .ok (String.mk t)
  else .error ("Invalid token: " ++ String.mk t ++ " - must be opcode (OP_*) or hex data")

/-- Split a character list at whitespace, keeping empty segments
(the semantics of Python `re.split` on single separators); the caller
filters the empties, which models collapsing whitespace runs. -/
def splitP : List Char → List (List Char)
  | [] => [[]]
  | c :: cs =>
    if isWS c then [] :: splitP cs
    else
      match splitP cs with
      | [] => [[c]]
      | w :: ws => (c :: w) :: ws

/-- Validate a list of raw tokens left to right, stopping at the first
error (the loop in `tokenize_script`). -/
def validate_all : List (List Char) → Except String (List String)
  | [] => .ok []
  | w :: ws =>
    match validate_token w with
    | .error e => .error e
    | .ok v =>
      match validate_all ws with
      | .error e => .error e
      | .ok vs => .ok (v :: vs)

/-- `tokenize_script` from parser.py. -/
def tokenize_script (script : String) : Except String (List String) :=
  if script.data.all isWS then .error "Empty script provided"
  else
    let words := (splitP script.data).filter (fun w => !w.isEmpty)
    if words.isEmpty then .error "Script contains no valid tokens"
    else validate_all words

/-- Interpose a single space between words (Python `" ".join` at the
character level). -/
def intercalateSp : List (List Char) → List Char
  | [] => []
  | [w] => w
  | w :: ws => w ++ ' ' :: intercalateSp ws

/-- Python `" ".join(tokens)`. -/
def joinSp (ts : List String) : String :=
  String.mk (intercalateSp (ts.map String.data))

/-- The opcodes `parse_script` treats as known when computing its
non-fatal warnings. -/
def known_opcodes : List String :=
  ["OP_DUP", "OP_HASH160", "OP_EQUAL", "OP_EQUALVERIFY",
   "OP_CHECKSIG", "OP_CHECKMULTISIG", "OP_VERIFY", "OP_RETURN"]

/-- `parse_script` from parser.py: tokens plus a joined warning string. -/
def parse_script (script : String) : Except String (List String × String) := do
  let tokens ← tokenize_script script
  let warns1 :=
    if tokens.length = 1 ∧ pyUpper (tokens.headD "") = "OP_RETURN" then
      ["Script contains only OP_RETURN with no data payload"]
    else []
  let warns2 := tokens.filterMap (fun t =>
    if startsWithOP (upperChars t.data) ∧ ¬ known_opcodes.contains (pyUpper t) then
      some ("Unknown opcode " ++ t ++ " - will be processed as no-op")
    else none)
  let warnings := warns1 ++ warns2
  .ok (tokens, String.intercalate "; " warnings)

/-! ## opcodes.py

Stacks are `List String` with the top at the tail, as in the source.
Python's `stack[-1]` is `stack.getLastD ""` (always guarded by a length
check first, as in the source), `stack[:-1]` is `stack.dropLast`, and
`stack + [x]` is `stack ++ [x]`. -/

/-- The `OpcodeResult` dataclass. -/
structure OpcodeResult where
  success : Bool
  stack : List String
  explanation : String
  error : String := ""
  deriving Repr, DecidableEq

/-- Python `s[:n]`. -/
def pyTake (s : String) (n : Nat) : String := String.mk (s.data.take n)

def execute_op_dup (stack : List String) : OpcodeResult :=
  if stack.length < 1 then
    ⟨false, stack, "OP_DUP failed: stack is empty",
      "Stack underflow: OP_DUP requires at least 1 item"⟩
  else
    let top_item := stack.getLastD ""
    ⟨true, stack ++ [top_item],
      "OP_DUP: Duplicated " ++ top_item ++ " on top of the stack", ""⟩

def execute_op_drop (stack : List String) : OpcodeResult :=
  if stack.length < 1 then
    ⟨false, stack, "OP_DROP failed: stack is empty",
      "Stack underflow: OP_DROP requires at least 1 item"⟩
  else
    let top_item := stack.getLastD ""
    ⟨true, stack.dropLast,
      "OP_DROP: Removed " ++ top_item ++ " from the stack", ""⟩

def execute_op_swap (stack : List String) : OpcodeResult :=
  if stack.length < 2 then
    ⟨false, stack, "OP_SWAP failed: need at least 2 items",
      "Stack underflow: OP_SWAP requires at least 2 items"⟩
  else
    let x := stack.dropLast.getLastD ""
    let y := stack.getLastD ""
    ⟨true, stack.dropLast.dropLast ++ [y, x],
      "OP_SWAP: Swapped " ++ x ++ " and " ++ y, ""⟩

def execute_op_rot (stack : List String) : OpcodeResult :=
  if stack.length < 3 then
    ⟨false, stack, "OP_ROT failed: need at least 3 items",
      "Stack underflow: OP_ROT requires at least 3 items"⟩
  else
    let x := stack.dropLast.dropLast.getLastD ""
    let y := stack.dropLast.getLastD ""
    let z := stack.getLastD ""
    ⟨true, stack.dropLast.dropLast.dropLast ++ [y, z, x],
      "OP_ROT: Rotated - " ++ x ++ " moved to top, " ++ y ++ " and " ++ z ++ " shifted down", ""⟩

def execute_op_over (stack : List String) : OpcodeResult :=
  if stack.length < 2 then
    ⟨false, stack, "OP_OVER failed: need at least 2 items",
      "Stack underflow: OP_OVER requires at least 2 items"⟩
  else
    let second := stack.dropLast.getLastD ""
    ⟨true, stack ++ [second], "OP_OVER: Copied " ++ second ++ " to top of stack", ""⟩

def execute_op_nip (stack : List String) : OpcodeResult :=
  if stack.length < 2 then
    ⟨false, stack, "OP_NIP failed: need at least 2 items",
      "Stack underflow: OP_NIP requires at least 2 items"⟩
  else
    let removed := stack.dropLast.getLastD ""
    ⟨true, stack.dropLast.dropLast ++ [stack.getLastD ""],
      "OP_NIP: Removed second item " ++ removed, ""⟩

def execute_op_tuck (stack : List String) : OpcodeResult :=
  if stack.length < 2 then
    ⟨false, stack, "OP_TUCK failed: need at least 2 items",
      "Stack underflow: OP_TUCK requires at least 2 items"⟩
  else
    let top := stack.getLastD ""
    ⟨true, stack.dropLast.dropLast ++ [top, stack.dropLast.getLastD "", top],
      "OP_TUCK: Copied " ++ top ++ " below second item", ""⟩

def execute_op_2dup (stack : List String) : OpcodeResult :=
  if stack.length < 2 then
    ⟨false, stack, "OP_2DUP failed: need at least 2 items",
      "Stack underflow: OP_2DUP requires at least 2 items"⟩
  else
    ⟨true, stack ++ [stack.dropLast.getLastD "", stack.getLastD ""],
      "OP_2DUP: Duplicated " ++ stack.dropLast.getLastD "" ++ " and " ++ stack.getLastD "", ""⟩

def execute_op_3dup (stack : List String) : OpcodeResult :=
  if stack.length < 3 then
    ⟨false, stack, "OP_3DUP failed: need at least 3 items",
      "Stack underflow: OP_3DUP requires at least 3 items"⟩
  else
    ⟨true, stack ++ [stack.dropLast.dropLast.getLastD "", stack.dropLast.getLastD "",
        stack.getLastD ""],
      "OP_3DUP: Duplicated the top three items", ""⟩

def execute_op_2drop (stack : List String) : OpcodeResult :=
  if stack.length < 2 then
    ⟨false, stack, "OP_2DROP failed: need at least 2 items",
      "Stack underflow: OP_2DROP requires at least 2 items"⟩
  else
    ⟨true, stack.dropLast.dropLast,
      "OP_2DROP: Removed " ++ stack.dropLast.getLastD "" ++ " and " ++ stack.getLastD "", ""⟩

def execute_op_depth (stack : List String) : OpcodeResult :=
  let depth := toString stack.length
  ⟨true, stack ++ [depth], "OP_DEPTH: Pushed stack depth " ++ depth, ""⟩

def execute_op_size (stack : List String) : OpcodeResult :=
  if stack.length < 1 then
    ⟨false, stack, "OP_SIZE failed: stack is empty",
      "Stack underflow: OP_SIZE requires at least 1 item"⟩
  else
    let top := stack.getLastD ""
    let size := if top.data.all isHexDigitCh then toString (top.data.length / 2)
                else toString top.data.length
    ⟨true, stack ++ [size], "OP_SIZE: Pushed size " ++ size ++ " of top item", ""⟩

/-- The four symbolic hash handlers share this shape (source repeats it
verbatim per function). -/
def symbolicHash (opname fn : String) (stack : List String) : OpcodeResult :=
  if stack.length < 1 then
    ⟨false, stack, opname ++ " failed: stack is empty",
      "Stack underflow: " ++ opname ++ " requires at least 1 item"⟩
  else
    let top_item := stack.getLastD ""
    ⟨true, stack.dropLast ++ [fn ++ "(" ++ top_item ++ ")"],
      opname ++ ": Replaced " ++ top_item ++ " with its " ++ fn ++ " (symbolic)", ""⟩

def execute_op_hash160 : List String → OpcodeResult := symbolicHash "OP_HASH160" "HASH160"

def execute_op_sha256 : List String → OpcodeResult := symbolicHash "OP_SHA256" "SHA256"

def execute_op_sha1 : List String → OpcodeResult := symbolicHash "OP_SHA1" "SHA1"

def execute_op_ripemd160 : List String → OpcodeResult := symbolicHash "OP_RIPEMD160" "RIPEMD160"

def execute_op_hash256 : List String → OpcodeResult := symbolicHash "OP_HASH256" "HASH256"

def execute_op_equal (stack : List String) : OpcodeResult :=
  if stack.length < 2 then
    ⟨false, stack, "OP_EQUAL failed: need at least 2 items",
      "Stack underflow: OP_EQUAL requires at least 2 items"⟩
  else
    let item1 := stack.getLastD ""
    let item2 := stack.dropLast.getLastD ""
    let ns := stack.dropLast.dropLast
    if item1 = item2 then
      ⟨true, ns ++ ["TRUE"], "OP_EQUAL: " ++ item2 ++ " equals " ++ item1 ++ " - pushed TRUE", ""⟩
    else
      ⟨true, ns ++ ["EQUAL(" ++ item2 ++ "," ++ item1 ++ ")"],
        "OP_EQUAL: Compared " ++ item2 ++ " and " ++ item1 ++ " - symbolic result", ""⟩

def execute_op_equalverify (stack : List String) : OpcodeResult :=
  if stack.length < 2 then
    ⟨false, stack, "OP_EQUALVERIFY failed: need at least 2 items",
      "Stack underflow: OP_EQUALVERIFY requires at least 2 items"⟩
  else
    let item1 := stack.getLastD ""
    let item2 := stack.dropLast.getLastD ""
    let ns := stack.dropLast.dropLast
    if item1 = item2 then
      ⟨true, ns, "OP_EQUALVERIFY: Verified " ++ item2 ++ " equals " ++ item1, ""⟩
    else
      ⟨true, ns, "OP_EQUALVERIFY: Symbolically verified equality (assumed valid)", ""⟩

/-- Common shape of the numeric comparison handlers: integer-parse
both operands, push `TRUE`/`FALSE` on success, else a symbolic
composite `SYM(a,b)` (source repeats this shape per function). -/
def numCompare (opname sym : String) (cmp : Int → Int → Bool) (rel : String)
    (stack : List String) : OpcodeResult :=
  if stack.length < 2 then
    ⟨false, stack, opname ++ " failed: need at least 2 items",
      "Stack underflow: " ++ opname ++ " requires at least 2 items"⟩
  else
    let a := stack.dropLast.getLastD ""
    let b := stack.getLastD ""
    let ns := stack.dropLast.dropLast
    match pyToInt a, pyToInt b with
    | some x, some y =>
      let result := if cmp x y then "TRUE" else "FALSE"
      ⟨true, ns ++ [result], opname ++ ": " ++ a ++ " " ++ rel ++ " " ++ b ++ " is " ++ result, ""⟩
    | _, _ =>
      ⟨true, ns ++ [sym ++ "(" ++ a ++ "," ++ b ++ ")"],
        opname ++ ": Symbolic comparison of " ++ a ++ " and " ++ b, ""⟩

def execute_op_numequal : List String → OpcodeResult :=
  numCompare "OP_NUMEQUAL" "NUMEQUAL" (fun x y => x = y) "=="

def execute_op_numequalverify (stack : List String) : OpcodeResult :=
  if stack.length < 2 then
    ⟨false, stack, "OP_NUMEQUALVERIFY failed: need at least 2 items",
      "Stack underflow: OP_NUMEQUALVERIFY requires at least 2 items"⟩
  else
    let a := stack.dropLast.getLastD ""
    let b := stack.getLastD ""
    ⟨true, stack.dropLast.dropLast,
      "OP_NUMEQUALVERIFY: Verified " ++ a ++ " equals " ++ b, ""⟩

def execute_op_lessthan : List String → OpcodeResult :=
  numCompare "OP_LESSTHAN" "LESSTHAN" (fun x y => x < y) "<"

def execute_op_greaterthan : List String → OpcodeResult :=
  numCompare "OP_GREATERTHAN" "GREATERTHAN" (fun x y => x > y) ">"

def execute_op_lessthanorequal : List String → OpcodeResult :=
  numCompare "OP_LESSTHANOREQUAL" "LESSTHANOREQUAL" (fun x y => x ≤ y) "<="

def execute_op_greaterthanorequal : List String → OpcodeResult :=
  numCompare "OP_GREATERTHANOREQUAL" "GREATERTHANOREQUAL" (fun x y => x ≥ y) ">="

def execute_op_within (stack : List String) : OpcodeResult :=
  if stack.length < 3 then
    ⟨false, stack, "OP_WITHIN failed: need at least 3 items",
      "Stack underflow: OP_WITHIN requires at least 3 items"⟩
  else
    let x := stack.dropLast.dropLast.getLastD ""
    let min_val := stack.dropLast.getLastD ""
    let max_val := stack.getLastD ""
    let ns := stack.dropLast.dropLast.dropLast
    match pyToInt x, pyToInt min_val, pyToInt max_val with
    | some xi, some mini, some maxi =>
      let result := if mini ≤ xi ∧ xi < maxi then "TRUE" else "FALSE"
      ⟨true, ns ++ [result],
        "OP_WITHIN: " ++ min_val ++ " <= " ++ x ++ " < " ++ max_val ++ " is " ++ result, ""⟩
    | _, _, _ =>
      ⟨true, ns ++ ["WITHIN(" ++ x ++ "," ++ min_val ++ "," ++ max_val ++ ")"],
        "OP_WITHIN: Symbolic range check", ""⟩

/-- Common shape of the two-operand arithmetic handlers: integer-parse
both operands, push the exact decimal result, else a symbolic composite. -/
def numArith (opname sym : String) (f : Int → Int → Int) (rel : String)
    (stack : List String) : OpcodeResult :=
  if stack.length < 2 then
    ⟨false, stack, opname ++ " failed: need at least 2 items",
      "Stack underflow: " ++ opname ++ " requires at least 2 items"⟩
  else
    let a := stack.dropLast.getLastD ""
    let b := stack.getLastD ""
    let ns := stack.dropLast.dropLast
    match pyToInt a, pyToInt b with
    | some x, some y =>
      let result := toString (f x y)
      ⟨true, ns ++ [result], opname ++ ": " ++ a ++ " " ++ rel ++ " " ++ b ++ " = " ++ result, ""⟩
    | _, _ =>
      ⟨true, ns ++ [sym ++ "(" ++ a ++ "," ++ b ++ ")"],
        opname ++ ": Symbolic combination of " ++ a ++ " and " ++ b, ""⟩

def execute_op_add : List String → OpcodeResult :=
  numArith "OP_ADD" "ADD" (fun x y => x + y) "+"

def execute_op_sub : List String → OpcodeResult :=
  numArith "OP_SUB" "SUB" (fun x y => x - y) "-"

def execute_op_min : List String → OpcodeResult :=
  numArith "OP_MIN" "MIN" (fun x y => min x y) "min"

def execute_op_max : List String → OpcodeResult :=
  numArith "OP_MAX" "MAX" (fun x y => max x y) "max"

/-- Common shape of the one-operand arithmetic handlers. -/
def numUnary (opname sym : String) (f : Int → Int) (stack : List String) : OpcodeResult :=
  if stack.length < 1 then
    ⟨false, stack, opname ++ " failed: stack is empty",
      "Stack underflow: " ++ opname ++ " requires at least 1 item"⟩
  else
    let a := stack.getLastD ""
    let ns := stack.dropLast
    match pyToInt a with
    | some x =>
      let result := toString (f x)
      ⟨true, ns ++ [result], opname ++ ": applied to " ++ a ++ " = " ++ result, ""⟩
    | none =>
      ⟨true, ns ++ [sym ++ "(" ++ a ++ ")"], opname ++ ": Symbolic operation on " ++ a, ""⟩

def execute_op_1add : List String → OpcodeResult := numUnary "OP_1ADD" "ADD1" (fun x => x + 1)

def execute_op_1sub : List String → OpcodeResult := numUnary "OP_1SUB" "SUB1" (fun x => x - 1)

def execute_op_negate : List String → OpcodeResult := numUnary "OP_NEGATE" "NEGATE" (fun x => -x)

def execute_op_abs : List String → OpcodeResult := numUnary "OP_ABS" "ABS" (fun x => |x|)

/-- Python's falsy stack values in the logic handlers: `"0"`, `"FALSE"`
and the empty string. -/
def falsyVals : List String := ["0", "FALSE", ""]

def execute_op_not (stack : List String) : OpcodeResult :=
  if stack.length < 1 then
    ⟨false, stack, "OP_NOT failed: stack is empty",
      "Stack underflow: OP_NOT requires at least 1 item"⟩
  else
    let a := stack.getLastD ""
    let ns := stack.dropLast
    if falsyVals.contains a then
      ⟨true, ns ++ ["1"], "OP_NOT: NOT(" ++ a ++ ") = 1 (true)", ""⟩
    else if a = "1" ∨ a = "TRUE" then
      ⟨true, ns ++ ["0"], "OP_NOT: NOT(" ++ a ++ ") = 0 (false)", ""⟩
    else
      ⟨true, ns ++ ["0"], "OP_NOT: NOT(" ++ a ++ ") = 0 (non-zero becomes false)", ""⟩

def execute_op_0notequal (stack : List String) : OpcodeResult :=
  if stack.length < 1 then
    ⟨false, stack, "OP_0NOTEQUAL failed: stack is empty",
      "Stack underflow: OP_0NOTEQUAL requires at least 1 item"⟩
  else
    let a := stack.getLastD ""
    let ns := stack.dropLast
    if falsyVals.contains a then
      ⟨true, ns ++ ["0"], "OP_0NOTEQUAL: " ++ a ++ " equals zero, pushed 0", ""⟩
    else
      ⟨true, ns ++ ["1"], "OP_0NOTEQUAL: " ++ a ++ " is non-zero, pushed 1", ""⟩

def execute_op_booland (stack : List String) : OpcodeResult :=
  if stack.length < 2 then
    ⟨false, stack, "OP_BOOLAND failed: need at least 2 items",
      "Stack underflow: OP_BOOLAND requires at least 2 items"⟩
  else
    let a := stack.dropLast.getLastD ""
    let b := stack.getLastD ""
    let result := if ¬ falsyVals.contains a ∧ ¬ falsyVals.contains b then "1" else "0"
    ⟨true, stack.dropLast.dropLast ++ [result],
      "OP_BOOLAND: " ++ a ++ " AND " ++ b ++ " = " ++ result, ""⟩

def execute_op_boolor (stack : List String) : OpcodeResult :=
  if stack.length < 2 then
    ⟨false, stack, "OP_BOOLOR failed: need at least 2 items",
      "Stack underflow: OP_BOOLOR requires at least 2 items"⟩
  else
    let a := stack.dropLast.getLastD ""
    let b := stack.getLastD ""
    let result := if ¬ falsyVals.contains a ∨ ¬ falsyVals.contains b then "1" else "0"
    ⟨true, stack.dropLast.dropLast ++ [result],
      "OP_BOOLOR: " ++ a ++ " OR " ++ b ++ " = " ++ result, ""⟩

def execute_op_checksig (stack : List String) : OpcodeResult :=
  if stack.length < 2 then
    ⟨false, stack, "OP_CHECKSIG failed: need signature and public key",
      "Stack underflow: OP_CHECKSIG requires at least 2 items"⟩
  else
    let pubkey := stack.getLastD ""
    let sig := stack.dropLast.getLastD ""
    ⟨true, stack.dropLast.dropLast ++ ["TRUE (symbolic signature verification)"],
      "OP_CHECKSIG: Verified signature " ++ pyTake sig 16 ++ "... against pubkey " ++
        pyTake pubkey 16 ++ "... (symbolic)", ""⟩

def execute_op_checksigverify (stack : List String) : OpcodeResult :=
  if stack.length < 2 then
    ⟨false, stack, "OP_CHECKSIGVERIFY failed: need signature and public key",
      "Stack underflow: OP_CHECKSIGVERIFY requires at least 2 items"⟩
  else
    ⟨true, stack.dropLast.dropLast,
      "OP_CHECKSIGVERIFY: Verified and removed signature check result (symbolic)", ""⟩

def execute_op_checkmultisig (stack : List String) : OpcodeResult :=
  if stack.length < 4 then
    ⟨false, stack, "OP_CHECKMULTISIG failed: insufficient items",
      "Stack underflow: OP_CHECKMULTISIG requires more items"⟩
  else
    ⟨true, ["TRUE (symbolic multisig verification)"],
      "OP_CHECKMULTISIG: Symbolically verified M-of-N multisig (assumed valid)", ""⟩

def execute_op_checkmultisigverify (stack : List String) : OpcodeResult :=
  if stack.length < 4 then
    ⟨false, stack, "OP_CHECKMULTISIGVERIFY failed: insufficient items",
      "Stack underflow: OP_CHECKMULTISIGVERIFY requires more items"⟩
  else
    ⟨true, [], "OP_CHECKMULTISIGVERIFY: Symbolically verified multisig (assumed valid)", ""⟩

def execute_op_verify (stack : List String) : OpcodeResult :=
  if stack.length < 1 then
    ⟨false, stack, "OP_VERIFY failed: stack is empty",
      "Stack underflow: OP_VERIFY requires at least 1 item"⟩
  else
    let top_item := stack.getLastD ""
    let ns := stack.dropLast
    if falsyVals.contains (pyUpper top_item) then
      ⟨false, ns, "OP_VERIFY: Failed - " ++ top_item ++ " is false/zero",
        "Verification failed: top stack item is false"⟩
    else
      ⟨true, ns, "OP_VERIFY: Verified " ++ top_item ++ " is truthy - passed", ""⟩

def execute_op_return (stack : List String) : OpcodeResult :=
  ⟨true, stack, "OP_RETURN: Script is provably unspendable (null data output)", ""⟩

def execute_op_if (stack : List String) : OpcodeResult :=
  if stack.length < 1 then
    ⟨false, stack, "OP_IF failed: stack is empty",
      "Stack underflow: OP_IF requires at least 1 item"⟩
  else
    ⟨true, stack.dropLast,
      "OP_IF: Condition " ++ stack.getLastD "" ++ " evaluated (symbolic flow control)", ""⟩

def execute_op_notif (stack : List String) : OpcodeResult :=
  if stack.length < 1 then
    ⟨false, stack, "OP_NOTIF failed: stack is empty",
      "Stack underflow: OP_NOTIF requires at least 1 item"⟩
  else
    ⟨true, stack.dropLast,
      "OP_NOTIF: Inverted condition " ++ stack.getLastD "" ++ " evaluated (symbolic)", ""⟩

def execute_op_else (stack : List String) : OpcodeResult :=
  ⟨true, stack, "OP_ELSE: Switched to else branch (symbolic flow control)", ""⟩

def execute_op_endif (stack : List String) : OpcodeResult :=
  ⟨true, stack, "OP_ENDIF: Ended conditional block", ""⟩

def execute_op_nop (stack : List String) : OpcodeResult :=
  ⟨true, stack, "OP_NOP: No operation", ""⟩

/-- `make_constant_handler` from opcodes.py. -/
def make_constant_handler (value description : String) (stack : List String) : OpcodeResult :=
  ⟨true, stack ++ [value], description ++ ": Pushed " ++ value ++ " onto stack", ""⟩

/-- `execute_data_push` from opcodes.py. -/
def execute_data_push (data : String) (stack : List String) : OpcodeResult :=
  let length := data.data.length
  let data_type :=
    if length = 40 then "hash (HASH160/20 bytes)"
    else if length = 64 then "hash (SHA256/32 bytes)"
    else if length = 66 ∨ length = 130 then "public key"
    else if length ≥ 140 then "signature"
    else if length % 2 = 0 then "data (" ++ toString (length / 2) ++ " bytes)"
    else "data"
  ⟨true, stack ++ [data],
    "PUSH: Added " ++ pyTake data 32 ++ (if length > 32 then "..." else "") ++
      " to stack (" ++ data_type ++ ")", ""⟩

/-- The `OPCODE_HANDLERS` registry. -/
def OPCODE_HANDLERS : String → Option (List String → OpcodeResult)
  | "OP_DUP" => some execute_op_dup
  | "OP_DROP" => some execute_op_drop
  | "OP_SWAP" => some execute_op_swap
  | "OP_ROT" => some execute_op_rot
  | "OP_OVER" => some execute_op_over
  | "OP_NIP" => some execute_op_nip
  | "OP_TUCK" => some execute_op_tuck
  | "OP_2DUP" => some execute_op_2dup
  | "OP_3DUP" => some execute_op_3dup
  | "OP_2DROP" => some execute_op_2drop
  | "OP_DEPTH" => some execute_op_depth
  | "OP_SIZE" => some execute_op_size
  | "OP_HASH160" => some execute_op_hash160
  | "OP_SHA256" => some execute_op_sha256
  | "OP_SHA1" => some execute_op_sha1
  | "OP_RIPEMD160" => some execute_op_ripemd160
  | "OP_HASH256" => some execute_op_hash256
  | "OP_EQUAL" => some execute_op_equal
  | "OP_EQUALVERIFY" => some execute_op_equalverify
  | "OP_NUMEQUAL" => some execute_op_numequal
  | "OP_NUMEQUALVERIFY" => some execute_op_numequalverify
  | "OP_LESSTHAN" => some execute_op_lessthan
  | "OP_GREATERTHAN" => some execute_op_greaterthan
  | "OP_LESSTHANOREQUAL" => some execute_op_lessthanorequal
  | "OP_GREATERTHANOREQUAL" => some execute_op_greaterthanorequal
  | "OP_WITHIN" => some execute_op_within
  | "OP_ADD" => some execute_op_add
  | "OP_SUB" => some execute_op_sub
  | "OP_1ADD" => some execute_op_1add
  | "OP_1SUB" => some execute_op_1sub
  | "OP_NEGATE" => some execute_op_negate
  | "OP_ABS" => some execute_op_abs
  | "OP_MIN" => some execute_op_min
  | "OP_MAX" => some execute_op_max
  | "OP_NOT" => some execute_op_not
  | "OP_0NOTEQUAL" => some execute_op_0notequal
  | "OP_BOOLAND" => some execute_op_booland
  | "OP_BOOLOR" => some execute_op_boolor
  | "OP_CHECKSIG" => some execute_op_checksig
  | "OP_CHECKSIGVERIFY" => some execute_op_checksigverify
  | "OP_CHECKMULTISIG" => some execute_op_checkmultisig
  | "OP_CHECKMULTISIGVERIFY" => some execute_op_checkmultisigverify
  | "OP_VERIFY" => some execute_op_verify
  | "OP_RETURN" => some execute_op_return
  | "OP_IF" => some execute_op_if
  | "OP_NOTIF" => some execute_op_notif
  | "OP_ELSE" => some execute_op_else
  | "OP_ENDIF" => some execute_op_endif
  | "OP_NOP" => some execute_op_nop
  | "OP_0" => some (make_constant_handler "0" "OP_0")
  | "OP_FALSE" => some (make_constant_handler "0" "OP_FALSE")
  | "OP_1" => some (make_constant_handler "1" "OP_1")
  | "OP_TRUE" => some (make_constant_handler "1" "OP_TRUE")
  | "OP_1NEGATE" => some (make_constant_handler "-1" "OP_1NEGATE")
  | "OP_2" => some (make_constant_handler "2" "OP_2")
  | "OP_3" => some (make_constant_handler "3" "OP_3")
  | "OP_4" => some (make_constant_handler "4" "OP_4")
  | "OP_5" => some (make_constant_handler "5" "OP_5")
  | "OP_6" => some (make_constant_handler "6" "OP_6")
  | "OP_7" => some (make_constant_handler "7" "OP_7")
  | "OP_8" => some (make_constant_handler "8" "OP_8")
  | "OP_9" => some (make_constant_handler "9" "OP_9")
  | "OP_10" => some (make_constant_handler "10" "OP_10")
  | "OP_11" => some (make_constant_handler "11" "OP_11")
  | "OP_12" => some (make_constant_handler "12" "OP_12")
  | "OP_13" => some (make_constant_handler "13" "OP_13")
  | "OP_14" => some (make_constant_handler "14" "OP_14")
  | "OP_15" => some (make_constant_handler "15" "OP_15")
  | "OP_16" => some (make_constant_handler "16" "OP_16")
  | _ => none

/-- `is_opcode` from opcodes.py. -/
def is_opcode (token : String) : Bool := startsWithOP (upperChars token.data)

/-! ## detector.py -/

def P2PKH : String := "P2PKH (Pay-to-Public-Key-Hash)"

def P2SH : String := "P2SH (Pay-to-Script-Hash)"

def P2PK : String := "P2PK (Pay-to-Public-Key)"

def MULTISIG : String := "Multisig (Multi-signature)"

def NULL_DATA : String := "Null Data (OP_RETURN)"

def P2WPKH : String := "P2WPKH (Native SegWit)"

def P2WSH : String := "P2WSH (SegWit Script Hash)"

def P2TR : String := "P2TR (Taproot)"

def UNKNOWN : String := "Unknown / Custom Script"

/-- The token normalisation shared by the detector and the structural
preload scan: upper-case opcode-shaped tokens, keep the rest. -/
def normalizeTokens (tokens : List String) : List String :=
  tokens.map (fun t => if startsWithOP (upperChars t.data) then pyUpper t else t)

def is_p2pkh (tokens : List String) : Bool :=
  if tokens.length ≠ 5 then false
  else
    tokens.headD "" = "OP_DUP" &&
    (tokens.drop 1).headD "" = "OP_HASH160" &&
    !(startsWithOP ((tokens.drop 2).headD "").data) &&
    (tokens.drop 3).headD "" = "OP_EQUALVERIFY" &&
    (tokens.drop 4).headD "" = "OP_CHECKSIG"

def is_p2sh (tokens : List String) : Bool :=
  if tokens.length ≠ 3 then false
  else
    tokens.headD "" = "OP_HASH160" &&
    !(startsWithOP ((tokens.drop 1).headD "").data) &&
    (tokens.drop 2).headD "" = "OP_EQUAL"

/-- Exactly `n` hex characters (the witness-program data checks use the
character set `0123456789abcdefABCDEF`). -/
def isNHex (s : String) (n : Nat) : Bool :=
  s.data.length = n && s.data.all isHexDigitCh

def is_p2wpkh (tokens : List String) : Bool :=
  if tokens.length ≠ 2 then false
  else if !(["OP_0", "0", "OP_FALSE"].contains (tokens.headD "")) then false
  else
    let witness_data := (tokens.drop 1).headD ""
    if startsWithOP witness_data.data then false
    else isNHex witness_data 40

def is_p2wsh (tokens : List String) : Bool :=
  if tokens.length ≠ 2 then false
  else if !(["OP_0", "0", "OP_FALSE"].contains (tokens.headD "")) then false
  else
    let witness_data := (tokens.drop 1).headD ""
    if startsWithOP witness_data.data then false
    else isNHex witness_data 64

def is_p2tr (tokens : List String) : Bool :=
  if tokens.length ≠ 2 then false
  else if !(["OP_1", "1", "OP_TRUE"].contains (tokens.headD "")) then false
  else
    let witness_data := (tokens.drop 1).headD ""
    if startsWithOP witness_data.data then false
    else isNHex witness_data 64

def is_p2pk (tokens : List String) : Bool :=
  if tokens.length ≠ 2 then false
  else
    !(startsWithOP (tokens.headD "").data) &&
    (tokens.drop 1).headD "" = "OP_CHECKSIG"

/-- `is_small_num` from detector.py: a decimal numeral 0–16 or one of the
small-constant opcode names. -/
def is_small_num (token : String) : Bool :=
  (token.data ≠ [] && token.data.all Char.isDigit && decVal token.data ≤ 16) ||
  (["OP_0", "OP_1", "OP_2", "OP_3", "OP_4", "OP_5",
    "OP_6", "OP_7", "OP_8", "OP_9", "OP_10", "OP_11",
    "OP_12", "OP_13", "OP_14", "OP_15", "OP_16",
    "OP_FALSE", "OP_TRUE"].contains (pyUpper token))

/-- `parse_small_num` from detector.py (`-1` for an unmapped token). -/
def parse_small_num (token : String) : Int :=
  if token.data ≠ [] && token.data.all Char.isDigit then Int.ofNat (decVal token.data)
  else
    match pyUpper token with
    | "OP_0" => 0 | "OP_FALSE" => 0
    | "OP_1" => 1 | "OP_TRUE" => 1
    | "OP_2" => 2 | "OP_3" => 3 | "OP_4" => 4 | "OP_5" => 5
    | "OP_6" => 6 | "OP_7" => 7 | "OP_8" => 8 | "OP_9" => 9
    | "OP_10" => 10 | "OP_11" => 11 | "OP_12" => 12 | "OP_13" => 13
    | "OP_14" => 14 | "OP_15" => 15 | "OP_16" => 16
    | _ => -1

def is_multisig (tokens : List String) : Bool :=
  if tokens.length < 4 then false
  else if tokens.getLastD "" ≠ "OP_CHECKMULTISIG" then false
  else is_small_num (tokens.headD "") && is_small_num (tokens.dropLast.getLastD "")

/-- `get_multisig_params` from detector.py. -/
def get_multisig_params (tokens : List String) : Option (Int × Int) :=
  if tokens.length < 4 then none
  else
    let m := parse_small_num (tokens.headD "")
    let n := parse_small_num (tokens.dropLast.getLastD "")
    if m > 0 ∧ n > 0 ∧ m ≤ n then some (m, n) else none

/-- `detect_script_type` from detector.py (descriptions shortened to
their leading sentence where long; no property depends on them). -/
def detect_script_type (tokens : List String) : String × String :=
  if tokens.isEmpty then (UNKNOWN, "Empty script")
  else
    let normalized := normalizeTokens tokens
    if normalized.headD "" = "OP_RETURN" then
      (NULL_DATA, "This is a null data output used for embedding data in the blockchain. It is provably unspendable.")
    else if is_p2pkh normalized then
      (P2PKH, "This is a Pay-to-Public-Key-Hash script. It requires a signature and public key that hashes to the embedded 20-byte hash.")
    else if is_p2sh normalized then
      (P2SH, "This is a Pay-to-Script-Hash script. The spender must provide a redeem script that hashes to the embedded hash.")
    else if is_p2wpkh normalized then
      (P2WPKH, "This is a Native SegWit Pay-to-Witness-Public-Key-Hash script.")
    else if is_p2wsh normalized then
      (P2WSH, "This is a Native SegWit Pay-to-Witness-Script-Hash script.")
    else if is_p2tr normalized then
      (P2TR, "This is a Taproot (Pay-to-Taproot) script.")
    else if is_p2pk normalized then
      (P2PK, "This is a Pay-to-Public-Key script. An early Bitcoin script type that exposes the public key directly.")
    else if is_multisig normalized then
      match get_multisig_params normalized with
      | some (m, n) =>
        (MULTISIG, "This is a " ++ toString m ++ "-of-" ++ toString n ++
          " multi-signature script. It requires " ++ toString m ++
          " valid signatures from " ++ toString n ++ " possible public keys to spend.")
      | none =>
        (MULTISIG, "This is a multi-signature script requiring M-of-N signatures to spend.")
    else if normalized.contains "OP_CHECKMULTISIG" then
      (MULTISIG, "This appears to be a multisig-related script, but the pattern is non-standard.")
    else if normalized.contains "OP_CHECKSIG" then
      (UNKNOWN, "This script uses signature verification but does not match standard patterns.")
    else if normalized.length = 2 ∧
        (["OP_0", "OP_1", "OP_2", "0", "1", "2"].contains (normalized.headD "")) then
      (UNKNOWN, "This may be a witness program (SegWit) with non-standard witness data length.")
    else
      (UNKNOWN, "This is a custom or non-standard script that does not match known patterns.")

/-! ## explainer.py -/

/-- The pydantic `StackState` model: one recorded execution step. -/
structure StackState where
  step : Nat
  opcode : String
  stack_before : List String
  stack_after : List String
  explanation : String
  deriving Repr, DecidableEq

/-- The pydantic `ScriptExplanation` model. -/
structure ScriptExplanation where
  script : String
  script_type : String
  steps : List StackState
  summary : String
  success : Bool
  error : Option String
  deriving Repr, DecidableEq

/-- Python string interpolation of an `Optional[str]`: `None` prints as
`"None"` (this genuinely happens in `_forgiving_execute`). -/
def optStr : Option String → String
  | some w => w
  | none => "None"

/-- The multisig preload list `["<dummy>"] + ["<sig1>", ..., "<sigM>"]`. -/
def sigPlaceholders (m : Nat) : List String :=
  (List.range m).map (fun i => "<sig" ++ toString (i + 1) ++ ">")

/-- `Explainer._detect_structural_stack`: the structural preload re-scan
for Unknown-typed programs. -/
def detect_structural_stack (tokens : List String) : List String :=
  if tokens.isEmpty then []
  else
    let normalized := normalizeTokens tokens
    if normalized.length ≥ 5 ∧
        normalized.headD "" = "OP_DUP" ∧
        (normalized.drop 1).headD "" = "OP_HASH160" ∧
        normalized.dropLast.getLastD "" = "OP_EQUALVERIFY" ∧
        normalized.getLastD "" = "OP_CHECKSIG" then
      ["<signature>", "<public_key>"]
    else if normalized.length ≥ 3 ∧
        normalized.headD "" = "OP_HASH160" ∧
        normalized.getLastD "" = "OP_EQUAL" then
      ["<signature>", "<redeem_script>"]
    else if normalized.contains "OP_CHECKMULTISIG" then
      if normalized.length ≥ 4 ∧ is_small_num (normalized.headD "") ∧
          parse_small_num (normalized.headD "") > 0 then
        "<dummy>" :: sigPlaceholders (parse_small_num (normalized.headD "")).toNat
      else ["<dummy>", "<sig1>", "<sig2>"]
    else if normalized.getLastD "" = "OP_CHECKSIG" ∧ ¬ normalized.contains "OP_DUP" then
      ["<signature>"]
    else if (["OP_DUP", "OP_HASH160", "OP_HASH256", "OP_SHA256",
              "OP_CHECKSIG", "OP_CHECKMULTISIG", "OP_EQUALVERIFY", "OP_EQUAL"].any
              (fun op => normalized.contains op)) then
      ["<symbolic_input>"]
    else []

/-- `Explainer._get_symbolic_initial_stack`: type-directed preload,
falling back to the structural scan for Unknown scripts. -/
def get_symbolic_initial_stack (script_type : String) (tokens : List String) : List String :=
  if script_type = P2PKH then ["<signature>", "<public_key>"]
  else if script_type = P2SH then ["<signature>", "<redeem_script>"]
  else if script_type = P2PK then ["<signature>"]
  else if script_type = MULTISIG then
    if tokens.length ≥ 1 ∧ parse_small_num (tokens.headD "") > 0 then
      "<dummy>" :: sigPlaceholders (parse_small_num (tokens.headD "")).toNat
    else ["<dummy>", "<sig1>", "<sig2>"]
  else if script_type = P2WPKH ∨ script_type = P2WSH then []
  else if script_type = P2TR then []
  else if script_type = NULL_DATA then []
  else detect_structural_stack tokens

/-- Python's `pat in s` substring test, on character lists. -/
def isSubstring (pat : List Char) : List Char → Bool
  | [] => pat.isEmpty
  | c :: cs => pat.isPrefixOf (c :: cs) || isSubstring pat cs

/-- The six opcode names `_forgiving_execute` has recovery branches for. -/
def forgivingOpcodes : List String :=
  ["OP_DUP", "OP_VERIFY", "OP_EQUALVERIFY", "OP_CHECKSIG", "OP_HASH160", "OP_EQUAL"]

/-- `Explainer._forgiving_execute`.  `stack` is `self.stack` at entry,
i.e. the stack left by the failed handler (the engine stores the failed
result's stack back into `self.stack` before recovery runs).  Returns
the recovered result (whose `stack` field is the final `self.stack`)
and the warning, `none` when no warning was recorded. -/
def forgiving_execute (token : String) (stack : List String) (failed_result : OpcodeResult) :
    OpcodeResult × Option String :=
  let token_upper := pyUpper token
  if token_upper = "OP_DUP" ∧ stack.length < 1 then
    let warning := "Symbolic input injected for OP_DUP (empty stack)."
    let result := execute_op_dup (stack ++ ["<symbolic_input>"])
    (⟨true, result.stack, result.explanation ++ " ⚠️ " ++ warning, ""⟩, some warning)
  else if token_upper = "OP_VERIFY" then
    let (stack1, warning) :=
      if stack.length < 1 then
        (stack ++ ["TRUE"], some "Symbolic TRUE assumed for OP_VERIFY (empty stack).")
      else if (stack.getLastD "").data.headD ' ' = '<' ∨
          isSubstring "symbolic".data (pyLower (stack.getLastD "")).data then
        (stack, some "Symbolic verification assumed to succeed.")
      else (stack, none)
    let new_stack := stack1.dropLast
    (⟨true, new_stack,
      "OP_VERIFY: Verification passed (symbolic). ⚠️ " ++ optStr warning, ""⟩, warning)
  else if token_upper = "OP_EQUALVERIFY" then
    let (stack1, w0) :=
      if stack.length < 2 then
        (["<symbolic_a>", "<symbolic_b>"] ++ stack,
          some "Symbolic values assumed for OP_EQUALVERIFY.")
      else (stack, none)
    let new_stack := if stack1.length ≥ 2 then stack1.dropLast.dropLast else []
    let warning := some (w0.getD "Symbolic verification assumed to succeed.")
    (⟨true, new_stack,
      "OP_EQUALVERIFY: Symbolic equality verified. ⚠️ " ++ optStr warning, ""⟩, warning)
  else if token_upper = "OP_CHECKSIG" then
    let (stack1, warning) :=
      if stack.length < 2 then
        ((if stack.length = 0 then ["<assumed_signature>", "<assumed_public_key>"]
          else "<assumed_public_key>" :: stack),
          some "Symbolic signature and public key assumed for educational execution.")
      else (stack, none)
    let new_stack := stack1.dropLast.dropLast ++ ["TRUE"]
    (⟨true, new_stack,
      "OP_CHECKSIG: Signature verified (symbolic). ⚠️ " ++ optStr warning, ""⟩, warning)
  else if token_upper = "OP_HASH160" ∧ stack.length < 1 then
    let warning := "Symbolic input injected for OP_HASH160."
    let result := execute_op_hash160 (stack ++ ["<symbolic_input>"])
    (⟨true, result.stack, result.explanation ++ " ⚠️ " ++ warning, ""⟩, some warning)
  else if token_upper = "OP_EQUAL" ∧ stack.length < 2 then
    let warning := "Symbolic values assumed for OP_EQUAL."
    let result := execute_op_equal (List.replicate (2 - stack.length) "<symbolic_value>" ++ stack)
    (⟨true, result.stack, result.explanation ++ " ⚠️ " ++ warning, ""⟩, some warning)
  else (failed_result, none)

/-- `Explainer._execute_token`: dispatch one token to its handler, to the
unknown-opcode no-op, or to the data push. -/
def execute_token (token : String) (stack : List String) : OpcodeResult :=
  match OPCODE_HANDLERS (pyUpper token) with
  | some handler => handler stack
  | none =>
    if is_opcode token then
      ⟨true, stack, token ++ ": Unknown opcode (treated as no-op for demonstration)", ""⟩
    else execute_data_push token stack

/-- One engine step: execute the token and, when it failed and the run is
in forgiving mode, attempt recovery.  Returns the effective result and
the recovery warning, if any. -/
def effective (forgiving : Bool) (token : String) (stack : List String) :
    OpcodeResult × Option String :=
  let r0 := execute_token token stack
  if r0.success = false ∧ forgiving = true then forgiving_execute token r0.stack r0
  else (r0, none)

/-- The outcome of the execution loop in `Explainer.explain`: the threaded
form of the instance state (`self.steps`, `self.stack`, `self.warnings`)
plus the loop's success flag and error message. -/
structure RunResult where
  steps : List StackState
  stack : List String
  success : Bool
  error : Option String
  warnings : List String
  deriving Repr, DecidableEq

/-- The token-execution loop of `Explainer.explain`, with the mutable
instance state passed explicitly: `i` is the step index, `stack` is
`self.stack`, `warns` is `self.warnings`.  Execution stops at the first
failing (unrecovered) step. -/
def runTokens (forgiving : Bool) : List String → Nat → List String → List String → RunResult
  | [], _, stack, warns => ⟨[], stack, true, none, warns⟩
  | t :: ts, i, stack, warns =>
    let rw := effective forgiving t stack
    let warns1 := match rw.2 with | some w => warns ++ [w] | none => warns
    let step : StackState := ⟨i, t, stack, rw.1.stack, rw.1.explanation⟩
    if rw.1.success then
      let rest := runTokens forgiving ts (i + 1) rw.1.stack warns1
      ⟨step :: rest.steps, rest.stack, rest.success, rest.error, rest.warnings⟩
    else
      ⟨[step], rw.1.stack, false, some rw.1.error, warns1⟩

/-- `Explainer._get_initial_stack_message`. -/
def get_initial_stack_message (script_type : String) (initial_stack : List String) : String :=
  if script_type = NULL_DATA then
    "OP_RETURN scripts are provably unspendable - no unlocking script required."
  else if script_type = P2WPKH ∨ script_type = P2WSH ∨ script_type = P2TR then
    "SegWit/Taproot witness data is provided separately from the scriptPubKey."
  else if initial_stack.isEmpty then
    "Initial stack is empty. This script may be custom or may require specific unlock conditions."
  else
    let stack_display := String.intercalate ", " initial_stack
    if initial_stack.contains "<symbolic_input>" then
      "Initial Symbolic Stack: [" ++ stack_display ++ "]\n⚠️ Symbolic input assumed for educational execution. This script uses stack operations but does not match standard templates."
    else
      "Initial Symbolic Stack (represents scriptSig execution): [" ++ stack_display ++ "]\nThis stack is preloaded to represent data pushed by the unlocking script (scriptSig) in real Bitcoin execution."

/-- `Explainer._generate_summary`. -/
def generate_summary (script_type type_description : String) (success : Bool)
    (parse_warning initial_stack_message : String) (warnings : List String)
    (steps : List StackState) (stack : List String) : String :=
  let parts : List String :=
    ["Script Type: " ++ script_type, "\n" ++ type_description] ++
    (if initial_stack_message ≠ "" then ["\n\n" ++ initial_stack_message] else []) ++
    (if success then
      ["\nExecution: Completed successfully with " ++ toString steps.length ++ " steps."] ++
      (if ¬ stack.isEmpty then
        ["Final stack contains " ++ toString stack.length ++ " item(s): " ++
          String.intercalate ", " stack]
      else ["Final stack is empty."])
    else ["\nExecution: Failed during step " ++ toString steps.length ++ "."]) ++
    (if ¬ warnings.isEmpty then
      ["\n\n⚠️ FORGIVING EXECUTION WARNINGS:"] ++ warnings.map (fun w => "  • " ++ w)
    else []) ++
    (if parse_warning ≠ "" then ["\nWarning: " ++ parse_warning] else []) ++
    ["\n\n⚠️ DISCLAIMER: This is a symbolic simulation for educational purposes. It does not perform real cryptographic operations and should not be used for validating actual Bitcoin transactions."]
  String.intercalate "\n" parts

/-- `Explainer.explain`, with the warning list (the `self.warnings`
instance field, which the source only surfaces through the summary
text) returned alongside the explanation. -/
def explain_run (script : String) : ScriptExplanation × List String :=
  match parse_script script with
  | .error e =>
    (⟨script, "Error", [], "Failed to parse script: " ++ e, false, some e⟩, [])
  | .ok (tokens, parse_warning) =>
    let td := detect_script_type tokens
    let is_forgiving_mode := td.1 = UNKNOWN
    let initial_stack := get_symbolic_initial_stack td.1 tokens
    let initial_stack_message := get_initial_stack_message td.1 initial_stack
    let run := runTokens is_forgiving_mode tokens 0 initial_stack []
    let summary := generate_summary td.1 td.2 run.success parse_warning
      initial_stack_message run.warnings run.steps run.stack
    (⟨script, td.1, run.steps, summary, run.success, run.error⟩, run.warnings)

/-- The public entry point `explain`. -/
def explain (script : String) : ScriptExplanation := (explain_run script).1

/-- A trace is chained when each step's `stack_before` is the running
stack left by its predecessor (`s` is the initial stack). -/
def chained (s : List String) : List StackState → Bool
  | [] => true
  | st :: rest => (st.stack_before == s) && chained st.stack_after rest

/-- Default `StackState` used with `headD`/`getLastD` in statements. -/
def dummyStep : StackState := ⟨0, "", [], [], ""⟩

/-! ## Helper lemmas -/

theorem ws_upper (c : Char) : isWS (pyUpperChar c) = isWS c := by
  unfold pyUpperChar; split <;> rfl

theorem ws_lower (c : Char) : isWS (pyLowerChar c) = isWS c := by
  unfold pyLowerChar; split <;> rfl

theorem upper_idem (c : Char) : pyUpperChar (pyUpperChar c) = pyUpperChar c := by
  have h : ∀ r, pyUpperChar c = r → pyUpperChar r = r := by
    intro r h
    unfold pyUpperChar at h
    split at h <;> subst h <;>
      first
        | rfl
        | (unfold pyUpperChar; split <;> first | rfl | exact absurd rfl (by assumption))
  exact h _ rfl

theorem lower_idem (c : Char) : pyLowerChar (pyLowerChar c) = pyLowerChar c := by
  have h : ∀ r, pyLowerChar c = r → pyLowerChar r = r := by
    intro r h
    unfold pyLowerChar at h
    split at h <;> subst h <;>
      first
        | rfl
        | (unfold pyLowerChar; split <;> first | rfl | exact absurd rfl (by assumption))
  exact h _ rfl

theorem upper_lower (c : Char) : pyUpperChar (pyLowerChar c) = pyUpperChar c := by
  have h : ∀ r, pyLowerChar c = r → pyUpperChar r = pyUpperChar c := by
    intro r h
    unfold pyLowerChar at h
    split at h <;> subst h <;> rfl
  exact h _ rfl

theorem append_pair (init : List String) (a b : String) :
    init ++ [a, b] = (init ++ [a]) ++ [b] := by simp

theorem top2 (init : List String) (a b : String) :
    (init ++ [a, b]).getLastD "" = b ∧
    (init ++ [a, b]).dropLast.getLastD "" = a ∧
    (init ++ [a, b]).dropLast.dropLast = init ∧
    ¬ (init ++ [a, b]).length < 2 := by
  refine ⟨?_, ?_, ?_, ?_⟩
  · rw [append_pair]; exact List.getLastD_concat _ _ _
  · rw [append_pair, List.dropLast_concat]; exact List.getLastD_concat _ _ _
  · rw [append_pair, List.dropLast_concat]; exact List.dropLast_concat
  · simp

/-! ## Claim theorems -/

/-- C1, counterexample: `OP_EQUAL` does not integer-parse its operands.
On the depth-2 stack `["3", "4"]` both operands parse as integers, yet
the handler pushes the symbolic composite `EQUAL(3,4)` — not the boolean
result of `3 = 4` (in any encoding) — because it compares the operand
strings for equality instead.  Moreover the comparison handlers push
`TRUE`/`FALSE` markers, not decimal strings, as `OP_LESSTHAN` on the
same stack shows. -/
theorem equal_is_string_equality_cex :
    (execute_op_equal ["3", "4"]).success = true ∧
    (execute_op_equal ["3", "4"]).stack = ["EQUAL(3,4)"] ∧
    (execute_op_equal ["3", "4"]).stack ≠ ["0"] ∧
    (execute_op_equal ["3", "4"]).stack ≠ ["FALSE"] ∧
    pyToInt "3" = some 3 ∧ pyToInt "4" = some 4 ∧
    (execute_op_lessthan ["3", "4"]).stack = ["TRUE"] := by decide

/-- C1, amended: for every stack of depth at least 2 (`init ++ [a, b]`),
each two-operand handler succeeds and pops both operands.  The numeric
comparison handlers (`OP_NUMEQUAL`, `OP_LESSTHAN`, …) and the arithmetic
handlers (`OP_ADD`, `OP_SUB`) attempt integer parsing of both operands:
on success arithmetic pushes the exact decimal result while comparisons
push `TRUE`/`FALSE`; on parse failure they push the symbolic composite
`OP(a,b)` and still succeed.  `OP_EQUAL` never parses integers: it
pushes `TRUE` exactly when the operand strings are equal and the
symbolic composite `EQUAL(a,b)` otherwise.  In particular `OP_ADD` on
`"3"`, `"4"` pushes `"7"`, and `OP_ADD` with a non-numeric operand
succeeds symbolically. -/
theorem binop_semantics (init : List String) (a b : String) :
    ((execute_op_add (init ++ [a, b])).success = true ∧
      (execute_op_add (init ++ [a, b])).stack = init ++
        [match pyToInt a, pyToInt b with
         | some x, some y => toString (x + y)
         | _, _ => "ADD(" ++ a ++ "," ++ b ++ ")"]) ∧
    ((execute_op_sub (init ++ [a, b])).success = true ∧
      (execute_op_sub (init ++ [a, b])).stack = init ++
        [match pyToInt a, pyToInt b with
         | some x, some y => toString (x - y)
         | _, _ => "SUB(" ++ a ++ "," ++ b ++ ")"]) ∧
    ((execute_op_numequal (init ++ [a, b])).success = true ∧
      (execute_op_numequal (init ++ [a, b])).stack = init ++
        [match pyToInt a, pyToInt b with
         | some x, some y => if x = y then "TRUE" else "FALSE"
         | _, _ => "NUMEQUAL(" ++ a ++ "," ++ b ++ ")"]) ∧
    ((execute_op_lessthan (init ++ [a, b])).success = true ∧
      (execute_op_lessthan (init ++ [a, b])).stack = init ++
        [match pyToInt a, pyToInt b with
         | some x, some y => if x < y then "TRUE" else "FALSE"
         | _, _ => "LESSTHAN(" ++ a ++ "," ++ b ++ ")"]) ∧
    ((execute_op_equal (init ++ [a, b])).success = true ∧
      (execute_op_equal (init ++ [a, b])).stack = init ++
        [if b = a then "TRUE" else "EQUAL(" ++ a ++ "," ++ b ++ ")"]) := by
  obtain ⟨h1, h2, h3, h4⟩ := top2 init a b
  refine ⟨?_, ?_, ?_, ?_, ?_⟩
  · simp only [execute_op_add, numArith, if_neg h4, h1, h2, h3]
    cases pyToInt a <;> cases pyToInt b <;> exact ⟨rfl, rfl⟩
  · simp only [execute_op_sub, numArith, if_neg h4, h1, h2, h3]
    cases pyToInt a <;> cases pyToInt b <;> exact ⟨rfl, rfl⟩
  · simp only [execute_op_numequal, numCompare, if_neg h4, h1, h2, h3]
    cases pyToInt a <;> cases pyToInt b <;>
      first
        | exact ⟨rfl, rfl⟩
        | (refine ⟨rfl, ?_⟩; split <;> simp_all)
  · simp only [execute_op_lessthan, numCompare, if_neg h4, h1, h2, h3]
    cases pyToInt a <;> cases pyToInt b <;>
      first
        | exact ⟨rfl, rfl⟩
        | (refine ⟨rfl, ?_⟩; split <;> simp_all)
  · simp only [execute_op_equal, if_neg h4, h1, h2, h3]
    split <;> exact ⟨rfl, rfl⟩

/-- C1, witness for the amended statement at a concrete instance:
`OP_ADD` on preloaded `["3", "4"]` pushes exactly `"7"`, and on the
non-numeric operand `"x"` it succeeds with the symbolic `ADD(x,4)`. -/
theorem binop_semantics_w :
    ((execute_op_add ([] ++ ["3", "4"])).success = true ∧
      (execute_op_add ([] ++ ["3", "4"])).stack = [] ++ ["7"]) ∧
    ((execute_op_add ([] ++ ["x", "4"])).success = true ∧
      (execute_op_add ([] ++ ["x", "4"])).stack = [] ++ ["ADD(x,4)"]) := by
  constructor
  · have h := (binop_semantics [] "3" "4").1
    exact ⟨h.1, h.2⟩
  · have h := (binop_semantics [] "x" "4").1
    exact ⟨h.1, h.2⟩

/-- C2: on the P2PKH script the pipeline detects type P2PKH, preloads
`["<signature>", "<public_key>"]` (step 0's `stack_before`), records
exactly 5 steps, succeeds, and ends with the single terminal marker
`TRUE (symbolic signature verification)` on the stack. -/
theorem p2pkh_end_to_end :
    (explain "OP_DUP OP_HASH160 ab6807 OP_EQUALVERIFY OP_CHECKSIG").script_type =
      "P2PKH (Pay-to-Public-Key-Hash)" ∧
    (explain "OP_DUP OP_HASH160 ab6807 OP_EQUALVERIFY OP_CHECKSIG").success = true ∧
    (explain "OP_DUP OP_HASH160 ab6807 OP_EQUALVERIFY OP_CHECKSIG").steps.length = 5 ∧
    ((explain "OP_DUP OP_HASH160 ab6807 OP_EQUALVERIFY OP_CHECKSIG").steps.headD
        dummyStep).stack_before = ["<signature>", "<public_key>"] ∧
    ((explain "OP_DUP OP_HASH160 ab6807 OP_EQUALVERIFY OP_CHECKSIG").steps.getLastD
        dummyStep).stack_after = ["TRUE (symbolic signature verification)"] := by
  decide

/-- C3: every handler with a declared minimum arity, applied to a stack
shorter than that arity, fails with the input stack unchanged.  One
conjunct per underflow-checking handler, in source order, with the
arity the source declares (1, 2, 3 or 4). -/
theorem handler_underflow (stack : List String) :
    (stack.length < 1 → (execute_op_dup stack).success = false ∧ (execute_op_dup stack).stack = stack) ∧
    (stack.length < 1 → (execute_op_drop stack).success = false ∧ (execute_op_drop stack).stack = stack) ∧
    (stack.length < 2 → (execute_op_swap stack).success = false ∧ (execute_op_swap stack).stack = stack) ∧
    (stack.length < 3 → (execute_op_rot stack).success = false ∧ (execute_op_rot stack).stack = stack) ∧
    (stack.length < 2 → (execute_op_over stack).success = false ∧ (execute_op_over stack).stack = stack) ∧
    (stack.length < 2 → (execute_op_nip stack).success = false ∧ (execute_op_nip stack).stack = stack) ∧
    (stack.length < 2 → (execute_op_tuck stack).success = false ∧ (execute_op_tuck stack).stack = stack) ∧
    (stack.length < 2 → (execute_op_2dup stack).success = false ∧ (execute_op_2dup stack).stack = stack) ∧
    (stack.length < 3 → (execute_op_3dup stack).success = false ∧ (execute_op_3dup stack).stack = stack) ∧
    (stack.length < 2 → (execute_op_2drop stack).success = false ∧ (execute_op_2drop stack).stack = stack) ∧
    (stack.length < 1 → (execute_op_size stack).success = false ∧ (execute_op_size stack).stack = stack) ∧
    (stack.length < 1 → (execute_op_hash160 stack).success = false ∧ (execute_op_hash160 stack).stack = stack) ∧
    (stack.length < 1 → (execute_op_sha256 stack).success = false ∧ (execute_op_sha256 stack).stack = stack) ∧
    (stack.length < 1 → (execute_op_sha1 stack).success = false ∧ (execute_op_sha1 stack).stack = stack) ∧
    (stack.length < 1 → (execute_op_ripemd160 stack).success = false ∧ (execute_op_ripemd160 stack).stack = stack) ∧
    (stack.length < 1 → (execute_op_hash256 stack).success = false ∧ (execute_op_hash256 stack).stack = stack) ∧
    (stack.length < 2 → (execute_op_equal stack).success = false ∧ (execute_op_equal stack).stack = stack) ∧
    (stack.length < 2 → (execute_op_equalverify stack).success = false ∧ (execute_op_equalverify stack).stack = stack) ∧
    (stack.length < 2 → (execute_op_numequal stack).success = false ∧ (execute_op_numequal stack).stack = stack) ∧
    (stack.length < 2 → (execute_op_numequalverify stack).success = false ∧ (execute_op_numequalverify stack).stack = stack) ∧
    (stack.length < 2 → (execute_op_lessthan stack).success = false ∧ (execute_op_lessthan stack).stack = stack) ∧
    (stack.length < 2 → (execute_op_greaterthan stack).success = false ∧ (execute_op_greaterthan stack).stack = stack) ∧
    (stack.length < 2 → (execute_op_lessthanorequal stack).success = false ∧ (execute_op_lessthanorequal stack).stack = stack) ∧
    (stack.length < 2 → (execute_op_greaterthanorequal stack).success = false ∧ (execute_op_greaterthanorequal stack).stack = stack) ∧
    (stack.length < 3 → (execute_op_within stack).success = false ∧ (execute_op_within stack).stack = stack) ∧
    (stack.length < 2 → (execute_op_add stack).success = false ∧ (execute_op_add stack).stack = stack) ∧
    (stack.length < 2 → (execute_op_sub stack).success = false ∧ (execute_op_sub stack).stack = stack) ∧
    (stack.length < 1 → (execute_op_1add stack).success = false ∧ (execute_op_1add stack).stack = stack) ∧
    (stack.length < 1 → (execute_op_1sub stack).success = false ∧ (execute_op_1sub stack).stack = stack) ∧
    (stack.length < 1 → (execute_op_negate stack).success = false ∧ (execute_op_negate stack).stack = stack) ∧
    (stack.length < 1 → (execute_op_abs stack).success = false ∧ (execute_op_abs stack).stack = stack) ∧
    (stack.length < 2 → (execute_op_min stack).success = false ∧ (execute_op_min stack).stack = stack) ∧
    (stack.length < 2 → (execute_op_max stack).success = false ∧ (execute_op_max stack).stack = stack) ∧
    (stack.length < 1 → (execute_op_not stack).success = false ∧ (execute_op_not stack).stack = stack) ∧
    (stack.length < 1 → (execute_op_0notequal stack).success = false ∧ (execute_op_0notequal stack).stack = stack) ∧
    (stack.length < 2 → (execute_op_booland stack).success = false ∧ (execute_op_booland stack).stack = stack) ∧
    (stack.length < 2 → (execute_op_boolor stack).success = false ∧ (execute_op_boolor stack).stack = stack) ∧
    (stack.length < 2 → (execute_op_checksig stack).success = false ∧ (execute_op_checksig stack).stack = stack) ∧
    (stack.length < 2 → (execute_op_checksigverify stack).success = false ∧ (execute_op_checksigverify stack).stack = stack) ∧
    (stack.length < 4 → (execute_op_checkmultisig stack).success = false ∧ (execute_op_checkmultisig stack).stack = stack) ∧
    (stack.length < 4 → (execute_op_checkmultisigverify stack).success = false ∧ (execute_op_checkmultisigverify stack).stack = stack) ∧
    (stack.length < 1 → (execute_op_verify stack).success = false ∧ (execute_op_verify stack).stack = stack) ∧
    (stack.length < 1 → (execute_op_if stack).success = false ∧ (execute_op_if stack).stack = stack) ∧
    (stack.length < 1 → (execute_op_notif stack).success = false ∧ (execute_op_notif stack).stack = stack) := by
  refine ⟨?_, ?_, ?_, ?_, ?_, ?_, ?_, ?_, ?_, ?_, ?_, ?_, ?_, ?_, ?_, ?_, ?_, ?_, ?_, ?_,
    ?_, ?_, ?_, ?_, ?_, ?_, ?_, ?_, ?_, ?_, ?_, ?_, ?_, ?_, ?_, ?_, ?_, ?_, ?_, ?_, ?_,
    ?_, ?_, ?_⟩ <;>
    intro hs <;>
    simp only [execute_op_dup, execute_op_drop, execute_op_swap, execute_op_rot,
      execute_op_over, execute_op_nip, execute_op_tuck, execute_op_2dup, execute_op_3dup,
      execute_op_2drop, execute_op_size, execute_op_hash160, execute_op_sha256,
      execute_op_sha1, execute_op_ripemd160, execute_op_hash256, symbolicHash,
      execute_op_equal, execute_op_equalverify, execute_op_numequal,
      execute_op_numequalverify, numCompare, execute_op_lessthan, execute_op_greaterthan,
      execute_op_lessthanorequal, execute_op_greaterthanorequal, execute_op_within,
      execute_op_add, execute_op_sub, numArith, execute_op_1add, execute_op_1sub,
      execute_op_negate, execute_op_abs, numUnary, execute_op_min, execute_op_max,
      execute_op_not, execute_op_0notequal, execute_op_booland, execute_op_boolor,
      execute_op_checksig, execute_op_checksigverify, execute_op_checkmultisig,
      execute_op_checkmultisigverify, execute_op_verify, execute_op_if, execute_op_notif] <;>
    rw [if_pos hs] <;>
    exact ⟨rfl, rfl⟩

/-- C3, witness: `OP_DUP` on the empty stack fails and leaves it empty. -/
theorem handler_underflow_w :
    ([] : List String).length < 1 ∧
    (execute_op_dup []).success = false ∧ (execute_op_dup []).stack = [] := by
  refine ⟨by decide, ?_⟩
  exact (handler_underflow []).1 (by decide)

/-- C4: evaluation at the failing input.  `OP_VERIFY` on the concrete
false top `"0"` does fail at the handler level, but on the Unknown-typed
script `OP_0 OP_VERIFY` the forgiving layer rescues that verification
failure, so `explain` records 2 steps, reports overall success, and even
logs a recovery warning — the run does not halt with a failed step. -/
theorem verify_false_recovered_bug :
    (execute_op_verify ["0"]).success = false ∧
    (explain "OP_0 OP_VERIFY").script_type = "Unknown / Custom Script" ∧
    (explain "OP_0 OP_VERIFY").success = true ∧
    (explain "OP_0 OP_VERIFY").steps.length = 2 ∧
    (explain_run "OP_0 OP_VERIFY").2 = ["Symbolic TRUE assumed for OP_VERIFY (empty stack)."] := by
  decide

/-- C5, counterexample: forgiving recovery is not restricted to
stack-underflow failures.  `OP_VERIFY` on `["1", "0"]` fails with the
verification-failure error (not underflow, two items were present), yet
`_forgiving_execute` converts it into success — recording no warning —
and the Unknown-typed script `OP_1 OP_0 OP_VERIFY` therefore runs to
overall success with an empty warning list. -/
theorem forgiving_nonunderflow_cex :
    (execute_op_verify ["1", "0"]).success = false ∧
    (execute_op_verify ["1", "0"]).error = "Verification failed: top stack item is false" ∧
    (execute_op_verify ["1", "0"]).stack = ["1"] ∧
    (forgiving_execute "OP_VERIFY" ["1"] (execute_op_verify ["1", "0"])).1.success = true ∧
    (forgiving_execute "OP_VERIFY" ["1"] (execute_op_verify ["1", "0"])).2 = none ∧
    (explain "OP_1 OP_0 OP_VERIFY").success = true ∧
    (explain_run "OP_1 OP_0 OP_VERIFY").2 = [] := by
  decide

/-- C5, amended: recovery is attempted exactly for the six opcodes
`OP_DUP, OP_VERIFY, OP_EQUALVERIFY, OP_CHECKSIG, OP_HASH160, OP_EQUAL`
— any failure of any other opcode (for example an `OP_CHECKMULTISIG`
underflow) is returned unmodified with no warning, so it keeps
`success = false` and halts execution.  For the six, an underflow is
rescued by injecting placeholders to meet the arity, synthesizing a
successful result, and recording one warning; however, for `OP_VERIFY`
(and `OP_EQUALVERIFY`/`OP_CHECKSIG`, which can only fail by underflow)
the branch fires on any failure, not only underflow. -/
theorem forgiving_scope_amended :
    (∀ (t : String) (s : List String) (f : OpcodeResult),
      pyUpper t ∉ forgivingOpcodes → forgiving_execute t s f = (f, none)) ∧
    (∀ f : OpcodeResult, (forgiving_execute "OP_DUP" [] f).1.success = true ∧
      (forgiving_execute "OP_DUP" [] f).1.stack = ["<symbolic_input>", "<symbolic_input>"] ∧
      (forgiving_execute "OP_DUP" [] f).2 =
        some "Symbolic input injected for OP_DUP (empty stack).") ∧
    (∀ f : OpcodeResult, (forgiving_execute "OP_VERIFY" [] f).1.success = true ∧
      (forgiving_execute "OP_VERIFY" [] f).2 =
        some "Symbolic TRUE assumed for OP_VERIFY (empty stack).") ∧
    (∀ f : OpcodeResult, (forgiving_execute "OP_EQUALVERIFY" [] f).1.success = true ∧
      (forgiving_execute "OP_EQUALVERIFY" [] f).2 =
        some "Symbolic values assumed for OP_EQUALVERIFY.") ∧
    (∀ f : OpcodeResult, (forgiving_execute "OP_CHECKSIG" [] f).1.success = true ∧
      (forgiving_execute "OP_CHECKSIG" [] f).1.stack = ["TRUE"] ∧
      (forgiving_execute "OP_CHECKSIG" [] f).2 =
        some "Symbolic signature and public key assumed for educational execution.") ∧
    (∀ f : OpcodeResult, (forgiving_execute "OP_HASH160" [] f).1.success = true ∧
      (forgiving_execute "OP_HASH160" [] f).1.stack = ["HASH160(<symbolic_input>)"] ∧
      (forgiving_execute "OP_HASH160" [] f).2 =
        some "Symbolic input injected for OP_HASH160.") ∧
    (∀ f : OpcodeResult, (forgiving_execute "OP_EQUAL" [] f).1.success = true ∧
      (forgiving_execute "OP_EQUAL" [] f).1.stack = ["TRUE"] ∧
      (forgiving_execute "OP_EQUAL" [] f).2 = some "Symbolic values assumed for OP_EQUAL.") := by
  refine ⟨?_, ?_, ?_, ?_, ?_, ?_, ?_⟩
  · intro t s f h
    simp only [forgivingOpcodes, List.mem_cons, List.not_mem_nil, or_false, not_or] at h
    obtain ⟨h1, h2, h3, h4, h5, h6⟩ := h
    simp only [forgiving_execute]
    rw [if_neg (fun hc => h1 hc.1), if_neg h2, if_neg h3, if_neg h4,
        if_neg (fun hc => h5 hc.1), if_neg (fun hc => h6 hc.1)]
  · exact fun f => ⟨rfl, rfl, rfl⟩
  · exact fun f => ⟨rfl, rfl⟩
  · exact fun f => ⟨rfl, rfl⟩
  · exact fun f => ⟨rfl, rfl, rfl⟩
  · exact fun f => ⟨rfl, rfl, rfl⟩
  · exact fun f => ⟨rfl, rfl, rfl⟩

/-- C5, witness: an `OP_ABS` failure (not one of the six opcodes) is
returned unmodified with no warning. -/
theorem forgiving_scope_amended_w :
    pyUpper "OP_ABS" ∉ forgivingOpcodes ∧
    forgiving_execute "OP_ABS" [] ⟨false, [], "e", "m"⟩ = (⟨false, [], "e", "m"⟩, none) := by
  refine ⟨by decide, ?_⟩
  exact forgiving_scope_amended.1 "OP_ABS" [] ⟨false, [], "e", "m"⟩ (by decide)

/-- C6, counterexample: for the single-token script `OP_DUP` the
computed preload is not empty — the structural scan sees a
stack-consuming opcode and preloads the generic placeholder — and no
forgiving-mode warning is recorded. -/
theorem dup_only_preload_cex :
    ((explain "OP_DUP").steps.headD dummyStep).stack_before = ["<symbolic_input>"] ∧
    (explain_run "OP_DUP").2 = [] := by
  decide

/-- C6, amended: the script `OP_DUP` is classified Unknown, the preload
is the single generic placeholder `["<symbolic_input>"]` (because
`OP_DUP` is in the structural scan's stack-consuming list), execution
succeeds in one step by duplicating the placeholder — no forgiving
recovery fires and the warning list is empty. -/
theorem dup_only_run :
    (explain "OP_DUP").script_type = "Unknown / Custom Script" ∧
    (explain "OP_DUP").success = true ∧
    (explain "OP_DUP").steps.length = 1 ∧
    ((explain "OP_DUP").steps.headD dummyStep).stack_before = ["<symbolic_input>"] ∧
    ((explain "OP_DUP").steps.headD dummyStep).stack_after =
      ["<symbolic_input>", "<symbolic_input>"] ∧
    (explain_run "OP_DUP").2 = [] := by
  decide

/-- C7: whenever parsing fails, `explain` (which is total — the
embedding of the `except ParseError` branch) returns the sentinel
explanation: type `"Error"`, `success = false`, and the parse error
text in the `error` field. -/
theorem explain_parse_error (script err : String)
    (h : parse_script script = .error err) :
    (explain script).script_type = "Error" ∧
    (explain script).success = false ∧
    (explain script).error = some err := by
  simp only [explain, explain_run, h]
  trivial

/-- C7, witness: the empty input, a whitespace-only input and an
invalid-token input all fail parsing, and `explain ""` returns the
Error sentinel carrying the parse error text. -/
theorem explain_parse_error_w :
    parse_script "" = .error "Empty script provided" ∧
    parse_script " \t \n" = .error "Empty script provided" ∧
    parse_script "op_dup !bad" = .error "Invalid token: !bad - must be opcode (OP_*) or hex data" ∧
    (explain "").script_type = "Error" ∧
    (explain "").success = false ∧
    (explain "").error = some "Empty script provided" := by
  refine ⟨rfl, rfl, rfl, ?_⟩
  exact explain_parse_error "" "Empty script provided" rfl

/-- C10: `execute_op_verify` on a stack whose top is falsy (its
upper-cased form is `FALSE`, `0` or empty) fails with the result stack
equal to the input with its top removed — in particular the stack is
not left unchanged, unlike underflow failures. -/
theorem verify_false_pops_top (init : List String) (x : String)
    (h : pyUpper x = "FALSE" ∨ pyUpper x = "0" ∨ pyUpper x = "") :
    (execute_op_verify (init ++ [x])).success = false ∧
    (execute_op_verify (init ++ [x])).stack = init ∧
    (execute_op_verify (init ++ [x])).stack ≠ init ++ [x] := by
  have hlen : ¬ (init ++ [x]).length < 1 := by simp
  have hcontains : falsyVals.contains (pyUpper x) = true := by
    rcases h with h | h | h <;> rw [h] <;> decide
  simp only [execute_op_verify]
  rw [if_neg hlen]
  simp only [List.getLastD_concat, List.dropLast_concat]
  rw [if_pos hcontains]
  refine ⟨rfl, rfl, ?_⟩
  simp

/-- Engine-loop invariant, shared helper for the trace-shape claim:
starting `runTokens` with stack `stack` yields a chained trace, step
indices `i, i+1, …`, and a step whose effective result failed can only
be the last recorded one. -/
theorem runTokens_invariant (forgiving : Bool) (tokens : List String) :
    ∀ (i : Nat) (stack warns : List String),
      chained stack (runTokens forgiving tokens i stack warns).steps = true ∧
      (∀ j, j < (runTokens forgiving tokens i stack warns).steps.length →
        ((runTokens forgiving tokens i stack warns).steps.getD j dummyStep).step = i + j) ∧
      (∀ j, j < (runTokens forgiving tokens i stack warns).steps.length →
        (effective forgiving
            ((runTokens forgiving tokens i stack warns).steps.getD j dummyStep).opcode
            ((runTokens forgiving tokens i stack warns).steps.getD j dummyStep).stack_before).1.success
          = false →
        j + 1 = (runTokens forgiving tokens i stack warns).steps.length) := by
  induction tokens with
  | nil =>
    intro i stack warns
    refine ⟨rfl, ?_, ?_⟩ <;> intro j hj <;> simp [runTokens] at hj
  | cons t ts ih =>
    intro i stack warns
    rcases hE : effective forgiving t stack with ⟨⟨rs, rstack, rexpl, rerr⟩, (_ | wm)⟩ <;>
    (simp only [runTokens, hE]
     cases rs with
     | false =>
       simp only [Bool.false_eq_true, if_false]
       refine ⟨?_, ?_, ?_⟩
       · simp [chained]
       · intro j hj
         simp only [List.length_singleton] at hj
         interval_cases j
         simp
       · intro j hj _
         simp only [List.length_singleton] at hj ⊢
         omega
     | true =>
       simp only [if_true]
       refine ⟨?_, ?_, ?_⟩
       · simp only [chained, beq_self_eq_true, Bool.true_and]
         exact (ih (i + 1) rstack _).1
       · intro j hj
         cases j with
         | zero => simp
         | succ j' =>
           simp only [List.length_cons, Nat.succ_lt_succ_iff] at hj
           have h2 := (ih (i + 1) rstack _).2.1 j' hj
           simp only [List.getD_cons_succ]
           rw [h2]
           omega
       · intro j hj hfail
         cases j with
         | zero =>
           simp only [List.getD_cons_zero] at hfail
           rw [hE] at hfail
           simp at hfail
         | succ j' =>
           simp only [List.length_cons, Nat.succ_lt_succ_iff] at hj
           simp only [List.getD_cons_succ] at hfail
           have h3 := (ih (i + 1) rstack _).2.2 j' hj hfail
           simp only [List.length_cons]
           omega)

/-- C8: for every script accepted by the parser, the recorded trace is
chained — step 0's `stack_before` is the computed initial preload and
every later step's `stack_before` is its predecessor's `stack_after`
(that is what `chained` asserts) — the step indices are `0, 1, …`, and
a step whose effective execution failed is always the last recorded
step: nothing is recorded after the first failure. -/
theorem explain_trace_invariant (script : String) (tokens : List String) (pw : String)
    (h : parse_script script = .ok (tokens, pw)) :
    chained (get_symbolic_initial_stack (detect_script_type tokens).1 tokens)
      (explain script).steps = true ∧
    (∀ j, j < (explain script).steps.length →
      ((explain script).steps.getD j dummyStep).step = j) ∧
    (∀ j, j < (explain script).steps.length →
      (effective (decide ((detect_script_type tokens).1 = UNKNOWN))
        ((explain script).steps.getD j dummyStep).opcode
        ((explain script).steps.getD j dummyStep).stack_before).1.success = false →
      j + 1 = (explain script).steps.length) := by
  simp only [explain, explain_run, h]
  obtain ⟨h1, h2, h3⟩ := runTokens_invariant
    (decide ((detect_script_type tokens).1 = UNKNOWN)) tokens 0
    (get_symbolic_initial_stack (detect_script_type tokens).1 tokens) []
  refine ⟨h1, ?_, h3⟩
  intro j hj
  rw [h2 j hj]
  omega

/-- C8, witness: the single-token script `OP_DUP` parses, and its trace
is chained onto its computed preload. -/
theorem explain_trace_invariant_w :
    parse_script "OP_DUP" = .ok (["OP_DUP"], "") ∧
    chained (get_symbolic_initial_stack (detect_script_type ["OP_DUP"]).1 ["OP_DUP"])
      (explain "OP_DUP").steps = true := by
  refine ⟨rfl, ?_⟩
  exact (explain_trace_invariant "OP_DUP" ["OP_DUP"] "" rfl).1

/-- C10, witness: `OP_VERIFY` on `["x", "0"]` fails and pops the `"0"`. -/
theorem verify_false_pops_top_w :
    (pyUpper "0" = "FALSE" ∨ pyUpper "0" = "0" ∨ pyUpper "0" = "") ∧
    (execute_op_verify (["x"] ++ ["0"])).success = false ∧
    (execute_op_verify (["x"] ++ ["0"])).stack = ["x"] := by
  refine ⟨by decide, ?_⟩
  have h := verify_false_pops_top ["x"] "0" (by decide)
  exact ⟨h.1, h.2.1⟩

theorem lower_eq_underscore (c : Char) : pyLowerChar c = '_' ↔ c = '_' := by
  unfold pyLowerChar; split <;> first | exact Iff.rfl | decide

theorem lower_eq_plus (c : Char) : pyLowerChar c = '+' ↔ c = '+' := by
  unfold pyLowerChar; split <;> first | exact Iff.rfl | decide

theorem lower_eq_minus (c : Char) : pyLowerChar c = '-' ↔ c = '-' := by
  unfold pyLowerChar; split <;> first | exact Iff.rfl | decide

theorem lower_eq_zero (c : Char) : pyLowerChar c = '0' ↔ c = '0' := by
  unfold pyLowerChar; split <;> first | exact Iff.rfl | decide

theorem lower_eq_x (c : Char) : pyLowerChar c = 'x' ↔ (c = 'x' ∨ c = 'X') := by
  unfold pyLowerChar
  split
  all_goals first
    | decide
    | (constructor
       · exact fun h => Or.inl h
       · rintro (h | h)
         · exact h
         · exact absurd h (by assumption))

theorem lower_ne_X (c : Char) : pyLowerChar c ≠ 'X' := by
  unfold pyLowerChar
  split <;> first | decide | (intro h; exact absurd h (by assumption))

theorem hex_lower (c : Char) : isHexDigitCh (pyLowerChar c) = isHexDigitCh c := by
  unfold pyLowerChar; split <;> rfl

theorem digit_lower (c : Char) : Char.isDigit (pyLowerChar c) = Char.isDigit c := by
  unfold pyLowerChar; split <;> rfl

theorem dropWhile_eq_self (l : List Char) (h : ∀ c ∈ l, isWS c = false) :
    l.dropWhile isWS = l := by
  cases l with
  | nil => rfl
  | cons c cs =>
    rw [List.dropWhile_cons, h c (List.mem_cons_self c cs)]
    simp

theorem stripChars_id (l : List Char) (h : ∀ c ∈ l, isWS c = false) :
    stripChars l = l := by
  unfold stripChars
  rw [dropWhile_eq_self l h, dropWhile_eq_self, List.reverse_reverse]
  intro c hc
  exact h c (List.mem_reverse.mp hc)

theorem digitRun_lower (d : Char → Bool) (hd : ∀ c, d (pyLowerChar c) = d c)
    (l : List Char) : digitRun d (lowerChars l) = digitRun d l := by
  induction l using digitRun.induct d with
  | case1 => rfl
  | case2 c =>
    show digitRun d [pyLowerChar c] = _
    rw [digitRun, digitRun, hd c]
  | case3 c' cs ihh =>
    show digitRun d ('_' :: pyLowerChar c' :: lowerChars cs) = _
    rw [digitRun, digitRun]
    have ihh' : digitRun d (pyLowerChar c' :: lowerChars cs) = digitRun d (c' :: cs) := ihh
    rw [if_pos rfl, if_pos rfl, hd c', ihh']
  | case4 c c' cs hc ihh =>
    show digitRun d (pyLowerChar c :: pyLowerChar c' :: lowerChars cs) = _
    rw [digitRun, digitRun]
    have ihh' : digitRun d (pyLowerChar c' :: lowerChars cs) = digitRun d (c' :: cs) := ihh
    rw [if_neg (fun h => hc ((lower_eq_underscore c).mp h)), if_neg hc, hd c, ihh']

theorem digitsU_lower (d : Char → Bool) (hd : ∀ c, d (pyLowerChar c) = d c)
    (l : List Char) : digitsU d (lowerChars l) = digitsU d l := by
  cases l with
  | nil => rfl
  | cons c cs =>
    show digitsU d (pyLowerChar c :: lowerChars cs) = _
    rw [digitsU, digitsU, hd c, digitRun_lower d hd]

theorem headD_lower (l : List Char) :
    (lowerChars l).headD ' ' = pyLowerChar (l.headD ' ') := by
  cases l <;> rfl

theorem tail_lower (l : List Char) : (lowerChars l).tail = lowerChars l.tail := by
  cases l <;> rfl

theorem hexBody_lower (l : List Char) : hexBody (lowerChars l) = hexBody l := by
  match l with
  | [] => rfl
  | [c] =>
    show hexBody [pyLowerChar c] = _
    rw [hexBody, hexBody]
    exact digitsU_lower _ hex_lower [c]
  | c0 :: c1 :: r =>
    show hexBody (pyLowerChar c0 :: pyLowerChar c1 :: lowerChars r) = _
    rw [hexBody, hexBody]
    by_cases hp : c0 = '0' ∧ (c1 = 'x' ∨ c1 = 'X')
    · have hp' : pyLowerChar c0 = '0' ∧ (pyLowerChar c1 = 'x' ∨ pyLowerChar c1 = 'X') :=
        ⟨(lower_eq_zero c0).mpr hp.1, Or.inl ((lower_eq_x c1).mpr hp.2)⟩
      rw [if_pos hp, if_pos hp']
      rw [headD_lower r, tail_lower r]
      by_cases hu : r.headD ' ' = '_'
      · rw [if_pos hu, if_pos ((lower_eq_underscore _).mpr hu)]
        exact digitsU_lower _ hex_lower r.tail
      · rw [if_neg hu, if_neg (fun h => hu ((lower_eq_underscore _).mp h))]
        exact digitsU_lower _ hex_lower r
    · have hp' : ¬ (pyLowerChar c0 = '0' ∧ (pyLowerChar c1 = 'x' ∨ pyLowerChar c1 = 'X')) := by
        rintro ⟨h0, hx | hX⟩
        · exact hp ⟨(lower_eq_zero c0).mp h0, (lower_eq_x c1).mp hx⟩
        · exact lower_ne_X c1 hX
      rw [if_neg hp, if_neg hp']
      exact digitsU_lower _ hex_lower (c0 :: c1 :: r)

theorem pyInt16Valid_lower (l : List Char) (h : ∀ c ∈ l, isWS c = false) :
    pyInt16Valid (lowerChars l) = pyInt16Valid l := by
  have hlw : ∀ c ∈ lowerChars l, isWS c = false := by
    intro c hc
    obtain ⟨a, ha, rfl⟩ := List.mem_map.mp hc
    rw [ws_lower]
    exact h a ha
  rw [pyInt16Valid, pyInt16Valid, stripChars_id _ hlw, stripChars_id _ h]
  rw [headD_lower]
  by_cases hs : l.headD ' ' = '+' ∨ l.headD ' ' = '-'
  · have hs' : pyLowerChar (l.headD ' ') = '+' ∨ pyLowerChar (l.headD ' ') = '-' := by
      rcases hs with h1 | h1
      · exact Or.inl ((lower_eq_plus _).mpr h1)
      · exact Or.inr ((lower_eq_minus _).mpr h1)
    rw [if_pos hs, if_pos hs', tail_lower]
    exact hexBody_lower l.tail
  · have hs' : ¬ (pyLowerChar (l.headD ' ') = '+' ∨ pyLowerChar (l.headD ' ') = '-') := by
      rintro (h1 | h1)
      · exact hs (Or.inl ((lower_eq_plus _).mp h1))
      · exact hs (Or.inr ((lower_eq_minus _).mp h1))
    rw [if_neg hs, if_neg hs']
    exact hexBody_lower l

theorem lowerChars_idem (l : List Char) : lowerChars (lowerChars l) = lowerChars l := by
  simp only [lowerChars, List.map_map]
  exact List.map_congr_left fun c _ => lower_idem c

theorem upperChars_idem (l : List Char) : upperChars (upperChars l) = upperChars l := by
  simp only [upperChars, List.map_map]
  exact List.map_congr_left fun c _ => upper_idem c

theorem upperChars_lowerChars (l : List Char) :
    upperChars (lowerChars l) = upperChars l := by
  simp only [upperChars, lowerChars, List.map_map]
  exact List.map_congr_left fun c _ => upper_lower c

theorem drop2_lower (l : List Char) : (lowerChars l).drop 2 = lowerChars (l.drop 2) := by
  simp [lowerChars, List.map_drop]

theorem is_valid_hex_lower (l : List Char) (h : ∀ c ∈ l, isWS c = false) :
    is_valid_hex (lowerChars l) = is_valid_hex l := by
  rw [is_valid_hex, is_valid_hex]
  have hemp : (lowerChars l).isEmpty = l.isEmpty := by cases l <;> rfl
  rw [hemp, lowerChars_idem]
  by_cases he : l.isEmpty = true
  · rw [if_pos he, if_pos he]
  · rw [if_neg he, if_neg he]
    by_cases hx : startsWith0x (lowerChars l) = true
    · rw [if_pos hx, if_pos hx, drop2_lower, pyInt16Valid_lower]
      intro c hc
      exact h c (List.mem_of_mem_drop hc)
    · rw [if_neg hx, if_neg hx, pyInt16Valid_lower _ h]

theorem splitP_ne_nil (l : List Char) : splitP l ≠ [] := by
  induction l using splitP.induct with
  | case1 => simp [splitP]
  | case2 c cs hws ih => simp [splitP, hws]
  | case3 c cs hws hsp ih => exact absurd hsp ih
  | case4 c cs hws w ws hsp ih => simp [splitP, hws, hsp]

theorem splitP_no_ws (l : List Char) :
    ∀ w ∈ splitP l, ∀ c ∈ w, isWS c = false := by
  induction l using splitP.induct with
  | case1 =>
    intro w hw c hc
    simp [splitP] at hw
    subst hw
    simp at hc
  | case2 c cs hws ih =>
    intro w hw d hd
    simp only [splitP, hws, if_true] at hw
    rcases List.mem_cons.mp hw with rfl | hw'
    · simp at hd
    · exact ih w hw' d hd
  | case3 c cs hws hsp ih => exact absurd hsp (splitP_ne_nil cs)
  | case4 c cs hws w' ws' hsp ih =>
    intro w hw d hd
    simp only [splitP, hws, if_false, hsp] at hw
    have hcf : isWS c = false := Bool.not_eq_true _ |>.mp hws
    rcases List.mem_cons.mp hw with rfl | hw'
    · rcases List.mem_cons.mp hd with rfl | hd'
      · exact hcf
      · exact ih w' (hsp ▸ List.mem_cons_self w' ws') d hd'
    · exact ih w (hsp ▸ List.mem_cons_of_mem w' hw') d hd

theorem splitP_append (w : List Char) (hw : ∀ c ∈ w, isWS c = false) :
    ∀ (r v : List Char) (vs : List (List Char)),
      splitP r = v :: vs → splitP (w ++ r) = (w ++ v) :: vs := by
  induction w with
  | nil => intro r v vs h; simpa using h
  | cons c w' ih =>
    intro r v vs h
    have hc : isWS c = false := hw c (List.mem_cons_self c w')
    have hw' : ∀ d ∈ w', isWS d = false := fun d hd => hw d (List.mem_cons_of_mem c hd)
    show splitP (c :: (w' ++ r)) = _
    simp only [splitP, hc, Bool.false_eq_true, if_false]
    rw [ih hw' r v vs h]
    rfl

theorem splitP_space (r : List Char) : splitP (' ' :: r) = [] :: splitP r := rfl

theorem words_of_join :
    ∀ (ws : List (List Char)),
      (∀ w ∈ ws, w ≠ [] ∧ ∀ c ∈ w, isWS c = false) →
      (splitP (intercalateSp ws)).filter (fun w => !w.isEmpty) = ws := by
  intro ws
  induction ws with
  | nil => intro _; rfl
  | cons w ws' ih =>
    intro h
    obtain ⟨hne, hwf⟩ := h w (List.mem_cons_self w ws')
    have hlist : ∀ u ∈ ws', u ≠ [] ∧ ∀ c ∈ u, isWS c = false :=
      fun u hu => h u (List.mem_cons_of_mem w hu)
    cases ws' with
    | nil =>
      have h1 : splitP (w ++ []) = (w ++ []) :: [] := splitP_append w hwf [] [] [] rfl
      rw [List.append_nil] at h1
      show (splitP w).filter (fun u => !u.isEmpty) = [w]
      rw [h1]
      have hw1 : (!w.isEmpty) = true := by
        cases w with
        | nil => exact absurd rfl hne
        | cons c cs => rfl
      simp [List.filter_cons, hw1]
    | cons w2 rest =>
      show (splitP (w ++ ' ' :: intercalateSp (w2 :: rest))).filter (fun u => !u.isEmpty) =
        w :: w2 :: rest
      obtain ⟨v, vs, hsp⟩ : ∃ v vs, splitP (intercalateSp (w2 :: rest)) = v :: vs := by
        cases hq : splitP (intercalateSp (w2 :: rest)) with
        | nil => exact absurd hq (splitP_ne_nil _)
        | cons v vs => exact ⟨v, vs, rfl⟩
      have h2 : splitP (' ' :: intercalateSp (w2 :: rest)) =
          [] :: v :: vs := by rw [splitP_space, hsp]
      have h3 := splitP_append w hwf (' ' :: intercalateSp (w2 :: rest)) [] (v :: vs) h2
      rw [List.append_nil] at h3
      rw [h3]
      have hw1 : (!w.isEmpty) = true := by
        cases w with
        | nil => exact absurd rfl hne
        | cons c cs => rfl
      have ih' := ih hlist
      rw [hsp] at ih'
      simp [List.filter_cons, hw1, ih']

theorem isEmpty_true_iff (l : List Char) : l.isEmpty = true ↔ l = [] := by
  cases l <;> simp

theorem validate_token_ok (w : List Char) (hw : ∀ c ∈ w, isWS c = false)
    (t : String) (h : validate_token w = .ok t) :
    t.data ≠ [] ∧ (∀ c ∈ t.data, isWS c = false) ∧ validate_token t.data = .ok t := by
  rw [validate_token, stripChars_id w hw] at h
  have hupWS : ∀ c ∈ upperChars w, isWS c = false := by
    intro c hc
    obtain ⟨a, ha, rfl⟩ := List.mem_map.mp hc
    rw [ws_upper]; exact hw a ha
  have hloWS : ∀ c ∈ lowerChars w, isWS c = false := by
    intro c hc
    obtain ⟨a, ha, rfl⟩ := List.mem_map.mp hc
    rw [ws_lower]; exact hw a ha
  split_ifs at h with h0 h1 h2 h3 h4
  · -- opcode branch: t is the upper-cased token
    injection h with h'
    subst h'
    have hwne : w ≠ [] := fun hnil => h0 ((isEmpty_true_iff w).mpr hnil)
    have hne : upperChars w ≠ [] := by
      cases w with
      | nil => exact absurd rfl hwne
      | cons c cs => simp [upperChars]
    refine ⟨hne, hupWS, ?_⟩
    rw [validate_token, stripChars_id _ hupWS]
    rw [if_neg (fun hc => hne ((isEmpty_true_iff _).mp hc))]
    rw [if_pos (by rw [upperChars_idem]; exact h1)]
    rw [upperChars_idem]
  · -- hex branch: t is the lower-cased token
    injection h with h'
    subst h'
    have hwne : w ≠ [] := fun hnil => h0 ((isEmpty_true_iff w).mpr hnil)
    have hne : lowerChars w ≠ [] := by
      cases w with
      | nil => exact absurd rfl hwne
      | cons c cs => simp [lowerChars]
    refine ⟨hne, hloWS, ?_⟩
    rw [validate_token, stripChars_id _ hloWS]
    rw [if_neg (fun hc => hne ((isEmpty_true_iff _).mp hc))]
    rw [if_neg (by rw [upperChars_lowerChars]; exact h1)]
    rw [if_pos (by rw [is_valid_hex_lower w hw]; exact h2)]
    rw [lowerChars_idem]
  · -- digits branch: token kept verbatim
    injection h with h'
    subst h'
    refine ⟨fun hnil => h0 ((isEmpty_true_iff w).mpr hnil), hw, ?_⟩
    rw [validate_token, stripChars_id w hw]
    rw [if_neg h0, if_neg h1, if_neg h2, if_pos h3]
  · -- identifier branch: token kept verbatim
    injection h with h'
    subst h'
    refine ⟨fun hnil => h0 ((isEmpty_true_iff w).mpr hnil), hw, ?_⟩
    rw [validate_token, stripChars_id w hw]
    rw [if_neg h0, if_neg h1, if_neg h2, if_neg h3, if_pos h4]

theorem validate_all_forall :
    ∀ (ws : List (List Char)) (ts : List String), validate_all ws = .ok ts →
      List.Forall₂ (fun w t => validate_token w = .ok t) ws ts := by
  intro ws
  induction ws with
  | nil =>
    intro ts h
    injection h with h'
    subst h'
    exact List.Forall₂.nil
  | cons w ws' ih =>
    intro ts h
    rw [validate_all] at h
    cases hv : validate_token w with
    | error e => rw [hv] at h; exact Except.noConfusion h
    | ok v =>
      rw [hv] at h
      cases hrest : validate_all ws' with
      | error e => rw [hrest] at h; exact Except.noConfusion h
      | ok vs =>
        rw [hrest] at h
        injection h with h'
        subst h'
        exact List.Forall₂.cons hv (ih vs hrest)

theorem forall_validate_all :
    ∀ (ts : List String), (∀ t ∈ ts, validate_token t.data = .ok t) →
      validate_all (ts.map String.data) = .ok ts := by
  intro ts
  induction ts with
  | nil => intro _; rfl
  | cons t ts' ih =>
    intro h
    show validate_all (t.data :: ts'.map String.data) = _
    rw [validate_all, h t (List.mem_cons_self t ts'),
      ih (fun u hu => h u (List.mem_cons_of_mem t hu))]

theorem forall₂_exists_left {R : List Char → String → Prop} :
    ∀ {ws : List (List Char)} {ts : List String}, List.Forall₂ R ws ts →
      ∀ t ∈ ts, ∃ w ∈ ws, R w t := by
  intro ws ts hF
  induction hF with
  | nil => intro t ht; simp at ht
  | cons hr _ ihh =>
    intro t ht
    rcases List.mem_cons.mp ht with rfl | ht'
    · exact ⟨_, List.mem_cons_self _ _, hr⟩
    · obtain ⟨w, hw, hwr⟩ := ihh t ht'
      exact ⟨w, List.mem_cons_of_mem _ hw, hwr⟩

theorem intercalateSp_head (x : List Char) (xs : List (List Char)) :
    ∃ r, intercalateSp (x :: xs) = x ++ r := by
  cases xs with
  | nil => exact ⟨[], by simp [intercalateSp]⟩
  | cons y ys => exact ⟨' ' :: intercalateSp (y :: ys), rfl⟩

/-- C9: tokenization is idempotent on normalized output — if
`tokenize_script` accepts `s` with token list `T`, then tokenizing the
space-join of `T` yields exactly `T` again. -/
theorem tokenize_idem (s : String) (T : List String)
    (h : tokenize_script s = .ok T) :
    tokenize_script (joinSp T) = .ok T := by
  simp only [tokenize_script] at h
  split_ifs at h with hws hemp
  have hF := validate_all_forall _ T h
  have hword_facts : ∀ w ∈ (splitP s.data).filter (fun w => !w.isEmpty),
      ∀ c ∈ w, isWS c = false :=
    fun w hw => splitP_no_ws s.data w (List.mem_of_mem_filter hw)
  have htok : ∀ t ∈ T,
      t.data ≠ [] ∧ (∀ c ∈ t.data, isWS c = false) ∧ validate_token t.data = .ok t := by
    intro t ht
    obtain ⟨w, hwmem, hrel⟩ := forall₂_exists_left hF t ht
    exact validate_token_ok w (hword_facts w hwmem) t hrel
  have hTne : T ≠ [] := by
    rintro rfl
    generalize hW : (splitP s.data).filter (fun w => !w.isEmpty) = ws at hF hemp
    cases hF
    exact hemp rfl
  have hjd : (joinSp T).data = intercalateSp (T.map String.data) := rfl
  have hc1 : ¬ ((intercalateSp (T.map String.data)).all isWS = true) := by
    cases T with
    | nil => exact absurd rfl hTne
    | cons t0 T0 =>
      obtain ⟨ht0ne, ht0ws, _⟩ := htok t0 (List.mem_cons_self t0 T0)
      obtain ⟨r, hr⟩ := intercalateSp_head t0.data (T0.map String.data)
      show ¬ ((intercalateSp (t0.data :: T0.map String.data)).all isWS = true)
      rw [hr]
      cases hd : t0.data with
      | nil => exact absurd hd ht0ne
      | cons c cs =>
        have hcws : isWS c = false := ht0ws c (by rw [hd]; exact List.mem_cons_self c cs)
        simp [List.all_cons, hcws]
  have hw2 : (splitP (intercalateSp (T.map String.data))).filter (fun w => !w.isEmpty) =
      T.map String.data := by
    apply words_of_join
    intro w hw
    obtain ⟨t, ht, rfl⟩ := List.mem_map.mp hw
    obtain ⟨h1, h2, _⟩ := htok t ht
    exact ⟨h1, h2⟩
  have hc2 : ¬ ((T.map String.data).isEmpty = true) := by
    cases T with
    | nil => exact absurd rfl hTne
    | cons a b => intro hc; simp at hc
  rw [tokenize_script, hjd, if_neg hc1, hw2, if_neg hc2]
  exact forall_validate_all T (fun t ht => (htok t ht).2.2)

/-- C9, witness: a concrete mixed-case, extra-whitespace input whose
normalized join re-tokenizes to the same list. -/
theorem tokenize_idem_w :
    tokenize_script "  op_dup 0xAB  12 <pubkey>" = .ok ["OP_DUP", "0xab", "12", "<pubkey>"] ∧
    joinSp ["OP_DUP", "0xab", "12", "<pubkey>"] = "OP_DUP 0xab 12 <pubkey>" ∧
    tokenize_script "OP_DUP 0xab 12 <pubkey>" = .ok ["OP_DUP", "0xab", "12", "<pubkey>"] := by
  refine ⟨rfl, rfl, ?_⟩
  have h := tokenize_idem "  op_dup 0xAB  12 <pubkey>" ["OP_DUP", "0xab", "12", "<pubkey>"] rfl
  exact h

end BitcoinScript
